import Mathlib

/-!
Shallow embedding of the Campus Rumor Verification contracts
(IdentityRegistry, CredibilityToken, RumorRegistry, VotingSystem,
CorrelationManager, VerificationController, AutomationKeeper).

Modelling conventions:
* `uint256` is modelled as `Nat`, `int256` as `Int`; the values involved in
  every claim stay far below `2^255`, Solidity 0.8 checked arithmetic reverts
  on overflow, and the only unchecked-looking subtraction sites in the source
  are explicitly guarded, so no modular reduction is needed.
* Addresses and `bytes32` values are modelled as `Nat`; the `keccak256` pair
  key used by `CorrelationManager` is modelled as the ordered pair itself
  (keccak is injective for the contract's purposes).
* Solidity mappings are total functions with the zero struct as default.
* `block.timestamp` is an explicit `now : Nat` argument.
* A reverting external function is `Except e`; an error result means the
  transaction reverted and no state was changed.
* The ECDSA signature check in `registerStudent` is modelled as an abstract
  `sigValid : Bool` argument.
* Caller-authorization modifiers (`onlyOwner`, `onlyAuthorized`, `onlyOracle`)
  are identity checks on `msg.sender` against deployment wiring; operations
  are modelled as invoked by a caller that passes them, while `msg.sender`
  checks that feed the state logic (author-only deletion, self-vote ban)
  keep an explicit `sender` argument.
-/

def mapUpdate {α : Type} (m : Nat → α) (k : Nat) (v : α) : Nat → α :=
  fun x => if x = k then v else m x

def mapUpdate2 {α : Type} (m : Nat → Nat → α) (k1 k2 : Nat) (v : α) : Nat → Nat → α :=
  fun x y => if x = k1 ∧ y = k2 then v else m x y

def pairMapUpdate {α : Type} (m : Nat × Nat → α) (k : Nat × Nat) (v : α) : Nat × Nat → α :=
  fun x => if x = k then v else m x

def isOkE {ε α : Type} : Except ε α → Bool
  | .ok _ => true
  | .error _ => false

/-- Truncating (toward-zero) division, the semantics of Solidity `/` on int256. -/
def solDiv (a b : Int) : Int := Int.tdiv a b

/-! ## CredibilityToken (ERC-20 with clamped burn) -/

structure TokenState where
  balances : Nat → Nat

/-- Embeds `CredibilityToken.mint`: unconditionally credits `amount` to `to`. -/
def tokenMint (tok : TokenState) (toAddr amount : Nat) : TokenState :=
  { balances := mapUpdate tok.balances toAddr (tok.balances toAddr + amount) }

/-- Embeds `CredibilityToken.burn`: burns `min(amount, balance)` — if the user does
not have enough, it burns what they have (and does nothing at zero). -/
def tokenBurn (tok : TokenState) (fromAddr amount : Nat) : TokenState :=
  let balance := tok.balances fromAddr
  let burnAmount := if amount > balance then balance else amount
  if burnAmount > 0 then
    { balances := mapUpdate tok.balances fromAddr (balance - burnAmount) }
  else tok

/-! ## IdentityRegistry -/

inductive UserStatus where
  | NONE
  | NEW_USER
  | CREDIBLE_USER
  | DISCREDITED
  | BLOCKED
deriving DecidableEq, Repr

structure Student where
  studentID : Nat
  walletAddress : Nat
  emailHMAC : Nat
  credibilityScore : Nat
  status : UserStatus
  votingPower : Nat
  registeredAt : Nat
  totalPosts : Nat
  totalVotes : Nat
  accuratePredictions : Nat
  inaccuratePredictions : Nat
  discreditedUntil : Nat
  postsToday : Nat
  lastPostDate : Nat
  votesThisHour : Nat
  lastVoteHour : Nat
deriving DecidableEq, Repr

/-- The zero value of the `students` mapping. -/
def Student.empty : Student :=
  { studentID := 0, walletAddress := 0, emailHMAC := 0, credibilityScore := 0,
    status := .NONE, votingPower := 0, registeredAt := 0, totalPosts := 0,
    totalVotes := 0, accuratePredictions := 0, inaccuratePredictions := 0,
    discreditedUntil := 0, postsToday := 0, lastPostDate := 0,
    votesThisHour := 0, lastVoteHour := 0 }

structure IdentityState where
  nextStudentID : Nat
  students : Nat → Student
  emailHMACUsed : Nat → Bool
  studentIDToWallet : Nat → Nat

def INITIAL_CREDIBILITY : Nat := 10
def NEW_USER_VOTING_POWER : Nat := 2500
def CREDIBLE_USER_VOTING_POWER : Nat := 10000
def DISCREDITED_VOTING_POWER : Nat := 5000
def CREDIBILITY_THRESHOLD : Nat := 30
def DISCREDIT_DURATION : Nat := 30 * 86400

inductive IdErr where
  | walletAlreadyRegistered
  | emailAlreadyRegistered
  | invalidSignature
  | notRegistered
deriving DecidableEq, Repr

/-- Embeds `IdentityRegistry.registerStudent`. -/
def registerStudent (st : IdentityState) (tok : TokenState) (sender emailHMAC : Nat)
    (sigValid : Bool) (now : Nat) : Except IdErr (IdentityState × TokenState) :=
  if (st.students sender).studentID ≠ 0 then .error .walletAlreadyRegistered
  else if st.emailHMACUsed emailHMAC then .error .emailAlreadyRegistered
  else if ¬ sigValid then .error .invalidSignature
  else
    let studentID := st.nextStudentID
    let s : Student :=
      { studentID := studentID, walletAddress := sender, emailHMAC := emailHMAC,
        credibilityScore := INITIAL_CREDIBILITY, status := .NEW_USER,
        votingPower := NEW_USER_VOTING_POWER, registeredAt := now,
        totalPosts := 0, totalVotes := 0, accuratePredictions := 0,
        inaccuratePredictions := 0, discreditedUntil := 0, postsToday := 0,
        lastPostDate := 0, votesThisHour := 0, lastVoteHour := 0 }
    .ok ({ nextStudentID := studentID + 1,
           students := mapUpdate st.students sender s,
           emailHMACUsed := mapUpdate st.emailHMACUsed emailHMAC true,
           studentIDToWallet := mapUpdate st.studentIDToWallet studentID sender },
         tokenMint tok sender INITIAL_CREDIBILITY)

def getStudentByID (st : IdentityState) (studentID : Nat) : Student :=
  st.students (st.studentIDToWallet studentID)

/-- Embeds `IdentityRegistry.getVotingWeight` (read-only). -/
def getVotingWeight (st : IdentityState) (wallet now : Nat) : Nat :=
  let s := st.students wallet
  if s.studentID = 0 then 0
  else if s.status = .BLOCKED then 0
  else if s.status = .DISCREDITED ∧ now > s.discreditedUntil ∧
          s.credibilityScore ≥ CREDIBILITY_THRESHOLD then
    CREDIBLE_USER_VOTING_POWER
  else s.votingPower

/-- Embeds `IdentityRegistry._updateStatus`, as a pure function of one student record.
The source writes `student.status = newStatus` only inside the
`newStatus != oldStatus` guard (which also gates the event); writing it
unconditionally yields the identical record. -/
def updateStatusFn (s : Student) (now : Nat) : Student :=
  let step :=
    if s.credibilityScore = 0 then
      (UserStatus.BLOCKED, { s with votingPower := 0 })
    else if s.credibilityScore < CREDIBILITY_THRESHOLD then
      if s.status ≠ .NEW_USER ∧ s.status ≠ .DISCREDITED then
        (UserStatus.DISCREDITED,
         { s with votingPower := DISCREDITED_VOTING_POWER,
                  discreditedUntil := now + DISCREDIT_DURATION })
      else (s.status, s)
    else
      if s.status = .NEW_USER ∨ (s.status = .DISCREDITED ∧ now > s.discreditedUntil) then
        (UserStatus.CREDIBLE_USER,
         { s with votingPower := CREDIBLE_USER_VOTING_POWER, discreditedUntil := 0 })
      else (s.status, s)
  let newStatus := step.1
  let s1 := step.2
  let s2 :=
    if newStatus = .CREDIBLE_USER then
      if s1.credibilityScore ≥ 70 then { s1 with votingPower := 15000 }
      else if s1.credibilityScore ≥ 50 then { s1 with votingPower := 12000 }
      else s1
    else s1
  { s2 with status := newStatus }

/-- Embeds `IdentityRegistry.updateCredibility`. -/
def updateCredibility (st : IdentityState) (wallet newScore now : Nat) :
    Except IdErr IdentityState :=
  let s := st.students wallet
  if s.studentID = 0 then .error .notRegistered
  else
    let s1 := { s with credibilityScore := newScore }
    .ok { st with students := mapUpdate st.students wallet (updateStatusFn s1 now) }

/-- Embeds `IdentityRegistry.addCredibility` (also mints the same amount of tokens). -/
def addCredibility (st : IdentityState) (tok : TokenState) (wallet points now : Nat) :
    Except IdErr (IdentityState × TokenState) :=
  let s := st.students wallet
  if s.studentID = 0 then .error .notRegistered
  else
    let s1 := { s with credibilityScore := s.credibilityScore + points,
                       accuratePredictions := s.accuratePredictions + 1 }
    .ok ({ st with students := mapUpdate st.students wallet (updateStatusFn s1 now) },
         tokenMint tok wallet points)

/-- Embeds `IdentityRegistry.removeCredibility`: the score is clamped at zero rather
than underflowing, and the matching token burn is clamped by `tokenBurn`. -/
def removeCredibility (st : IdentityState) (tok : TokenState) (wallet points now : Nat) :
    Except IdErr (IdentityState × TokenState) :=
  let s := st.students wallet
  if s.studentID = 0 then .error .notRegistered
  else
    let newScore := if points ≥ s.credibilityScore then 0 else s.credibilityScore - points
    let s1 := { s with credibilityScore := newScore,
                       inaccuratePredictions := s.inaccuratePredictions + 1 }
    .ok ({ st with students := mapUpdate st.students wallet (updateStatusFn s1 now) },
         tokenBurn tok wallet points)

/-- Embeds `IdentityRegistry.incrementPostCount` (lazy daily reset). -/
def incrementPostCount (st : IdentityState) (wallet now : Nat) :
    Except IdErr IdentityState :=
  let s := st.students wallet
  if s.studentID = 0 then .error .notRegistered
  else
    let today := now / 86400
    let s1 := if s.lastPostDate < today then { s with postsToday := 0, lastPostDate := today } else s
    let s2 := { s1 with totalPosts := s1.totalPosts + 1, postsToday := s1.postsToday + 1 }
    .ok { st with students := mapUpdate st.students wallet s2 }

/-- Embeds `IdentityRegistry.incrementVoteCount` (lazy hourly reset). -/
def incrementVoteCount (st : IdentityState) (wallet now : Nat) :
    Except IdErr IdentityState :=
  let s := st.students wallet
  if s.studentID = 0 then .error .notRegistered
  else
    let currentHour := now / 3600
    let s1 := if s.lastVoteHour < currentHour then { s with votesThisHour := 0, lastVoteHour := currentHour } else s
    let s2 := { s1 with totalVotes := s1.totalVotes + 1, votesThisHour := s1.votesThisHour + 1 }
    .ok { st with students := mapUpdate st.students wallet s2 }

/-- Embeds `IdentityRegistry.canPost` (read-only): returns (canPost, requiresEvidence). -/
def canPost (st : IdentityState) (wallet now : Nat) : Bool × Bool :=
  let s := st.students wallet
  if s.studentID = 0 then (false, false)
  else if s.status = .BLOCKED then (false, false)
  else
    let today := now / 86400
    let postsToday := if s.lastPostDate < today then 0 else s.postsToday
    if s.status = .NEW_USER then (decide (postsToday < 3), true)
    else if s.status = .DISCREDITED then (decide (postsToday < 2), true)
    else (true, false)

/-! ## RumorRegistry -/

inductive RumorStatus where
  | ACTIVE
  | LOCKED
  | VERIFIED
  | DEBUNKED
  | DELETED
deriving DecidableEq, Repr

structure Rumor where
  rumorID : Nat
  authorID : Nat
  authorWallet : Nat
  contentHash : String
  evidenceHashes : List String
  hasEvidence : Bool
  initialConfidence : Int
  currentConfidence : Int
  lockedConfidence : Int
  status : RumorStatus
  visible : Bool
  createdAt : Nat
  lockedAt : Nat
  totalConfirmVotes : Nat
  totalDisputeVotes : Nat
  weightedConfirmScore : Int
  weightedDisputeScore : Int
  keywords : List String
deriving DecidableEq, Repr

/-- The zero value of the `rumors` mapping. -/
def Rumor.empty : Rumor :=
  { rumorID := 0, authorID := 0, authorWallet := 0, contentHash := "",
    evidenceHashes := [], hasEvidence := false, initialConfidence := 0,
    currentConfidence := 0, lockedConfidence := 0, status := .ACTIVE,
    visible := false, createdAt := 0, lockedAt := 0, totalConfirmVotes := 0,
    totalDisputeVotes := 0, weightedConfirmScore := 0, weightedDisputeScore := 0,
    keywords := [] }

structure Tombstone where
  originalRumorID : Nat
  finalConfidence : Int
  voteCount : Nat
  relatedRumorIDs : List Nat
  deletedAt : Nat
  deletedBy : Nat
  trustRedistributed : Bool
deriving DecidableEq, Repr

def Tombstone.empty : Tombstone :=
  { originalRumorID := 0, finalConfidence := 0, voteCount := 0,
    relatedRumorIDs := [], deletedAt := 0, deletedBy := 0,
    trustRedistributed := false }

structure RumorRegistryState where
  nextRumorID : Nat
  rumors : Nat → Rumor
  tombstones : Nat → Tombstone
  rumorsByAuthor : Nat → List Nat

def LOCK_DURATION : Nat := 7 * 86400
def MAX_CONFIDENCE : Int := 100
def MIN_CONFIDENCE : Int := -100

inductive RumorErr where
  | rumorNotFound
  | rumorNotActive
  | notAuthor
  | rumorLocked
  | lockDurationNotReached
deriving DecidableEq, Repr

/-- Embeds `RumorRegistry._calculateInitialConfidence`: note the default branch
returns a flat `-15` with no evidence term. -/
def calculateInitialConfidence (status : UserStatus) (hasEvidence : Bool)
    (evidenceCount : Nat) : Int :=
  let evidenceReduction : Int := if hasEvidence then 5 * (evidenceCount : Int) else 0
  if status = .NEW_USER then -20 + evidenceReduction
  else if status = .CREDIBLE_USER then -10 + evidenceReduction
  else if status = .DISCREDITED then -30 + evidenceReduction
  else -15

/-- The clamp at the end of `_updateConfidence` / `applyCorrelationBoost` /
`addTrustBonus`: two sequential ifs against MAX then MIN. -/
def clampConfidence (x : Int) : Int :=
  let x1 := if x > MAX_CONFIDENCE then MAX_CONFIDENCE else x
  if x1 < MIN_CONFIDENCE then MIN_CONFIDENCE else x1

/-- Embeds `RumorRegistry._updateConfidence`, as a pure function of the (already
vote-updated) rumor record.  The first branch locks an over-deadline ACTIVE
rumor; the `else if` blend branch applies only when the rumor was already
LOCKED on entry. -/
def updateConfidenceFn (r : Rumor) (now : Nat) : Rumor :=
  let voteScore := r.weightedConfirmScore - r.weightedDisputeScore
  let newConfidence := r.initialConfidence + voteScore
  let step :=
    if now ≥ r.createdAt + LOCK_DURATION ∧ r.status = .ACTIVE then
      ({ r with status := .LOCKED, lockedConfidence := newConfidence,
                lockedAt := now, visible := false }, newConfidence)
    else if r.status = .LOCKED then
      (r, solDiv (r.lockedConfidence * 95 + newConfidence * 5) 100)
    else (r, newConfidence)
  { step.1 with currentConfidence := clampConfidence step.2 }

/-- Embeds `RumorRegistry.recordVote` (external, onlyAuthorized; the caller in the
deployed system is `VotingSystem`). -/
def recordVote (rr : RumorRegistryState) (rumorID : Nat) (isConfirm : Bool)
    (weight : Int) (now : Nat) : Except RumorErr RumorRegistryState :=
  let r := rr.rumors rumorID
  if r.rumorID = 0 then .error .rumorNotFound
  else if r.status ≠ .ACTIVE then .error .rumorNotActive
  else
    let r1 :=
      if isConfirm then
        { r with totalConfirmVotes := r.totalConfirmVotes + 1,
                 weightedConfirmScore := r.weightedConfirmScore + weight }
      else
        { r with totalDisputeVotes := r.totalDisputeVotes + 1,
                 weightedDisputeScore := r.weightedDisputeScore + weight }
    .ok { rr with rumors := mapUpdate rr.rumors rumorID (updateConfidenceFn r1 now) }

/-- Embeds `RumorRegistry.lockRumor`. -/
def lockRumor (rr : RumorRegistryState) (rumorID now : Nat) :
    Except RumorErr RumorRegistryState :=
  let r := rr.rumors rumorID
  if r.rumorID = 0 then .error .rumorNotFound
  else if r.status ≠ .ACTIVE then .error .rumorNotActive
  else if ¬ (now ≥ r.createdAt + LOCK_DURATION) then .error .lockDurationNotReached
  else
    let r1 := { r with status := .LOCKED, lockedConfidence := r.currentConfidence,
                       lockedAt := now, visible := false }
    .ok { rr with rumors := mapUpdate rr.rumors rumorID r1 }

/-- Embeds `RumorRegistry.deleteRumor`: author-only soft delete with tombstone.  The
only disallowed source status is LOCKED — VERIFIED and DEBUNKED rumors can be
deleted. -/
def deleteRumor (rr : RumorRegistryState) (sender rumorID now : Nat) :
    Except RumorErr RumorRegistryState :=
  let r := rr.rumors rumorID
  if r.rumorID = 0 then .error .rumorNotFound
  else if r.authorWallet ≠ sender then .error .notAuthor
  else if r.status = .LOCKED then .error .rumorLocked
  else
    let ts : Tombstone :=
      { originalRumorID := rumorID, finalConfidence := r.currentConfidence,
        voteCount := r.totalConfirmVotes + r.totalDisputeVotes,
        relatedRumorIDs := [], deletedAt := now, deletedBy := r.authorID,
        trustRedistributed := false }
    let r1 := { r with status := .DELETED, visible := false }
    .ok { rr with rumors := mapUpdate rr.rumors rumorID r1,
                  tombstones := mapUpdate rr.tombstones rumorID ts }

/-- Embeds `RumorRegistry.setVerificationResult` (onlyAuthorized): note the only
guard is existence — there is no check against an already-terminal status. -/
def setVerificationResult (rr : RumorRegistryState) (rumorID : Nat) (isTrue : Bool)
    (now : Nat) : Except RumorErr RumorRegistryState :=
  let r := rr.rumors rumorID
  if r.rumorID = 0 then .error .rumorNotFound
  else
    let r1 := { r with status := if isTrue then .VERIFIED else .DEBUNKED,
                       lockedConfidence := r.currentConfidence, lockedAt := now }
    .ok { rr with rumors := mapUpdate rr.rumors rumorID r1 }

/-- Embeds `RumorRegistry.applyCorrelationBoost` (onlyAuthorized). -/
def applyBoostRR (rr : RumorRegistryState) (rumorID : Nat) (boost : Int) :
    Except RumorErr RumorRegistryState :=
  let r := rr.rumors rumorID
  if r.rumorID = 0 then .error .rumorNotFound
  else if r.status ≠ .ACTIVE then .error .rumorNotActive
  else
    let r1 := { r with currentConfidence := clampConfidence (r.currentConfidence + boost) }
    .ok { rr with rumors := mapUpdate rr.rumors rumorID r1 }

/-- Embeds `RumorRegistry.addTrustBonus` (onlyOwner). -/
def addTrustBonus (rr : RumorRegistryState) (rumorID : Nat) (bonus : Int) :
    Except RumorErr RumorRegistryState :=
  let r := rr.rumors rumorID
  if r.rumorID = 0 then .error .rumorNotFound
  else if r.status ≠ .ACTIVE then .error .rumorNotActive
  else
    let r1 := { r with currentConfidence := clampConfidence (r.currentConfidence + bonus) }
    .ok { rr with rumors := mapUpdate rr.rumors rumorID r1 }

/-- Embeds `RumorRegistry.isEligibleForLock` (read-only). -/
def isEligibleForLock (rr : RumorRegistryState) (rumorID now : Nat) : Bool :=
  (rr.rumors rumorID).status = .ACTIVE &&
    decide (now ≥ (rr.rumors rumorID).createdAt + LOCK_DURATION)

/-- Embeds `RumorRegistry.getTotalRumors`. -/
def getTotalRumors (rr : RumorRegistryState) : Nat := rr.nextRumorID - 1

/-! ## VotingSystem -/

inductive VoteType where
  | CONFIRM
  | DISPUTE
deriving DecidableEq, Repr

structure Vote where
  voteID : Nat
  rumorID : Nat
  voterID : Nat
  voterWallet : Nat
  voteType : VoteType
  voterWeight : Nat
  voterCredibility : Nat
  timestamp : Nat
deriving DecidableEq, Repr

def Vote.empty : Vote :=
  { voteID := 0, rumorID := 0, voterID := 0, voterWallet := 0,
    voteType := .CONFIRM, voterWeight := 0, voterCredibility := 0, timestamp := 0 }

structure VotingState where
  nextVoteID : Nat
  votes : Nat → Vote
  hasVoted : Nat → Nat → Bool
  votesByRumor : Nat → List Nat
  votesByVoter : Nat → List Nat

def MAX_VOTES_PER_HOUR : Nat := 10

inductive VoteErr where
  | voterNotRegistered
  | voterBlocked
  | rumorNotFound
  | rumorNotActive
  | alreadyVoted
  | selfVote
  | rateLimitExceeded
  | noVotingPower
  | registryRevert
deriving DecidableEq, Repr

/-- Embeds `VotingSystem._checkVoteRateLimit` (read-only). -/
def checkVoteRateLimit (st : IdentityState) (voter now : Nat) : Bool :=
  let s := st.students voter
  let currentHour := now / 3600
  let votesThisHour := if s.lastVoteHour < currentHour then 0 else s.votesThisHour
  decide (votesThisHour < MAX_VOTES_PER_HOUR)

/-! ## CorrelationManager -/

inductive RelationshipType where
  | SUPPORTIVE
  | CONTRADICTORY
deriving DecidableEq, Repr

structure Correlation where
  rumorA : Nat
  rumorB : Nat
  relationshipType : RelationshipType
  aiConfidence : Nat
  active : Bool
  createdAt : Nat
deriving DecidableEq, Repr

def Correlation.empty : Correlation :=
  { rumorA := 0, rumorB := 0, relationshipType := .SUPPORTIVE,
    aiConfidence := 0, active := false, createdAt := 0 }

/-- The `keccak256(abi.encodePacked(rumorA, rumorB))` key is modelled as the
ordered pair `(rumorA, rumorB)` itself. -/
structure CorrState where
  correlations : Nat × Nat → Correlation
  correlationExists : Nat × Nat → Bool
  correlationsByRumor : Nat → List (Nat × Nat)

def CORRELATION_VALIDITY_DAYS : Nat := 5

inductive CorrErr where
  | lengthMismatch
  | rumorANotFound
  | rumorBNotFound
  | rumorANotActive
  | rumorBNotActive
  | tooFarApart
  | correlationAlreadyExists
  | reverseCorrelationExists
  | registryRevert
deriving DecidableEq, Repr

/-- Embeds `CorrelationManager.deactivateCorrelations` (onlyOwner; invoked by
`AutomationKeeper` on the lock paths — no deletion path calls it). -/
def deactivateCorrelations (c : CorrState) (rumorID : Nat) : CorrState :=
  let newCorrelations :=
    (c.correlationsByRumor rumorID).foldl
      (fun m key => pairMapUpdate m key { m key with active := false })
      c.correlations
  { c with correlations := newCorrelations }

/-- The four tally buckets of `CorrelationManager.applyCorrelationBoost`:
(credibleSupport, newUserSupport, discreditedSupport, contradictions).
Only the `active` flag filters a correlation — the counterpart rumor's own
status (DELETED included) is never consulted. -/
def boostCounts (idSt : IdentityState) (rr : RumorRegistryState) (c : CorrState)
    (rumorID : Nat) : Nat × Nat × Nat × Nat :=
  (c.correlationsByRumor rumorID).foldl
    (fun acc key =>
      let corr := c.correlations key
      if ¬ corr.active then acc
      else
        let relatedRumorID := if corr.rumorA = rumorID then corr.rumorB else corr.rumorA
        let relatedRumor := rr.rumors relatedRumorID
        let author := getStudentByID idSt relatedRumor.authorID
        if corr.relationshipType = .SUPPORTIVE then
          match author.status with
          | .CREDIBLE_USER => (acc.1 + 1, acc.2.1, acc.2.2.1, acc.2.2.2)
          | .NEW_USER => (acc.1, acc.2.1 + 1, acc.2.2.1, acc.2.2.2)
          | .DISCREDITED => (acc.1, acc.2.1, acc.2.2.1 + 1, acc.2.2.2)
          | _ => acc
        else (acc.1, acc.2.1, acc.2.2.1, acc.2.2.2 + 1))
    (0, 0, 0, 0)

/-- The boost rule of `CorrelationManager.applyCorrelationBoost`. -/
def boostFromCounts (counts : Nat × Nat × Nat × Nat) : Int :=
  let credibleSupport := counts.1
  let newUserSupport := counts.2.1
  let discreditedSupport := counts.2.2.1
  let contradictions := counts.2.2.2
  let base : Int :=
    if credibleSupport ≥ 2 then 30
    else if credibleSupport ≥ 1 ∧ newUserSupport ≥ 1 then 15
    else if newUserSupport ≥ 2 then 5
    else 0
  let withDiscredit := if discreditedSupport ≥ 2 then base - 20 else base
  if contradictions ≥ 2 then withDiscredit - 10 else withDiscredit

/-! ## VerificationController -/

def AUTHOR_REWARD_TRUE : Nat := 5
def AUTHOR_PENALTY_FALSE : Nat := 10
def VOTER_REWARD_CORRECT : Nat := 1
def VOTER_PENALTY_WRONG_CONFIRM : Nat := 1
def VOTER_REWARD_CORRECT_DISPUTE : Nat := 2
def VOTER_PENALTY_WRONG_DISPUTE : Nat := 2

structure VerifState where
  verifiedRumors : Nat → Bool
  verificationResult : Nat → Bool

inductive VerifyErr where
  | alreadyVerified
  | rumorNotFound
  | registryRevert
  | identityRevert
deriving DecidableEq, Repr

/-- One iteration of the voter loop in `VerificationController.verifyRumor`. -/
def processVote (idSt : IdentityState) (tok : TokenState) (isTrue : Bool)
    (vote : Vote) (now : Nat) : Except IdErr (IdentityState × TokenState) :=
  let votedConfirm := vote.voteType = VoteType.CONFIRM
  let votedCorrectly := (isTrue ∧ votedConfirm) ∨ (¬ isTrue ∧ ¬ votedConfirm)
  if votedCorrectly then
    let reward := if votedConfirm then VOTER_REWARD_CORRECT else VOTER_REWARD_CORRECT_DISPUTE
    addCredibility idSt tok vote.voterWallet reward now
  else
    let penalty := if votedConfirm then VOTER_PENALTY_WRONG_CONFIRM else VOTER_PENALTY_WRONG_DISPUTE
    removeCredibility idSt tok vote.voterWallet penalty now

/-- The voter loop of `VerificationController.verifyRumor`. -/
def processVotes (ids : List Nat) (votes : Nat → Vote) (isTrue : Bool)
    (idSt : IdentityState) (tok : TokenState) (now : Nat) :
    Except IdErr (IdentityState × TokenState) :=
  match ids with
  | [] => .ok (idSt, tok)
  | vid :: rest =>
    match processVote idSt tok isTrue (votes vid) now with
    | .error e => .error e
    | .ok (idSt1, tok1) => processVotes rest votes isTrue idSt1 tok1 now

/-! ## Composed system state -/

structure KeeperState where
  lastCheckedRumorID : Nat
  batchSize : Nat

structure World where
  idState : IdentityState
  tokState : TokenState
  rrState : RumorRegistryState
  vState : VotingState
  cState : CorrState
  verifState : VerifState
  keeper : KeeperState

/-- Freshly deployed system: all mappings at their zero values, id counters
at 1, keeper checkpoint at 0 with the default batch size 50. -/
def World.init : World :=
  { idState := { nextStudentID := 1, students := fun _ => Student.empty,
                 emailHMACUsed := fun _ => false, studentIDToWallet := fun _ => 0 },
    tokState := { balances := fun _ => 0 },
    rrState := { nextRumorID := 1, rumors := fun _ => Rumor.empty,
                 tombstones := fun _ => Tombstone.empty,
                 rumorsByAuthor := fun _ => [] },
    vState := { nextVoteID := 1, votes := fun _ => Vote.empty,
                hasVoted := fun _ _ => false, votesByRumor := fun _ => [],
                votesByVoter := fun _ => [] },
    cState := { correlations := fun _ => Correlation.empty,
                correlationExists := fun _ => false,
                correlationsByRumor := fun _ => [] },
    verifState := { verifiedRumors := fun _ => false,
                    verificationResult := fun _ => false },
    keeper := { lastCheckedRumorID := 0, batchSize := 50 } }

/-! ## World-level operations (cross-contract call graphs) -/

inductive CreateErr where
  | authorNotRegistered
  | authorBlocked
  | postingLimitReached
  | identityRevert
deriving DecidableEq, Repr

/-- Embeds `RumorRegistry.createRumor`: reads the author from `IdentityRegistry`,
checks posting limits, stores the rumor with the unclamped initial
confidence, and increments the author's post count. -/
def createRumor (w : World) (sender : Nat) (contentIPFSHash : String)
    (evidenceIPFSHashes keywords : List String) (now : Nat) :
    Except CreateErr (World × Nat) :=
  let author := w.idState.students sender
  if author.studentID = 0 then .error .authorNotRegistered
  else if author.status = .BLOCKED then .error .authorBlocked
  else if ¬ (canPost w.idState sender now).1 then .error .postingLimitReached
  else
    let hasEvidence := decide (evidenceIPFSHashes.length > 0)
    let initialConfidence :=
      calculateInitialConfidence author.status hasEvidence evidenceIPFSHashes.length
    let rumorID := w.rrState.nextRumorID
    let r : Rumor :=
      { rumorID := rumorID, authorID := author.studentID, authorWallet := sender,
        contentHash := contentIPFSHash, evidenceHashes := evidenceIPFSHashes,
        hasEvidence := hasEvidence, initialConfidence := initialConfidence,
        currentConfidence := initialConfidence, lockedConfidence := 0,
        status := .ACTIVE, visible := true, createdAt := now, lockedAt := 0,
        totalConfirmVotes := 0, totalDisputeVotes := 0,
        weightedConfirmScore := 0, weightedDisputeScore := 0, keywords := keywords }
    let rr1 : RumorRegistryState :=
      { nextRumorID := rumorID + 1,
        rumors := mapUpdate w.rrState.rumors rumorID r,
        tombstones := w.rrState.tombstones,
        rumorsByAuthor := mapUpdate w.rrState.rumorsByAuthor author.studentID
          (w.rrState.rumorsByAuthor author.studentID ++ [rumorID]) }
    match incrementPostCount w.idState sender now with
    | .error _ => .error .identityRevert
    | .ok id1 => .ok ({ w with idState := id1, rrState := rr1 }, rumorID)

/-- Embeds `VotingSystem.voteOnRumor`: the full call graph including the downstream
`RumorRegistry.recordVote` and `IdentityRegistry.incrementVoteCount`. -/
def voteOnRumor (w : World) (sender rumorID : Nat) (voteType : VoteType)
    (now : Nat) : Except VoteErr (World × Nat) :=
  let voter := w.idState.students sender
  if voter.studentID = 0 then .error .voterNotRegistered
  else if voter.status = .BLOCKED then .error .voterBlocked
  else
    let rumor := w.rrState.rumors rumorID
    if rumor.rumorID = 0 then .error .rumorNotFound
    else if rumor.status ≠ .ACTIVE then .error .rumorNotActive
    else if w.vState.hasVoted rumorID sender then .error .alreadyVoted
    else if rumor.authorWallet = sender then .error .selfVote
    else if ¬ checkVoteRateLimit w.idState sender now then .error .rateLimitExceeded
    else
      let weight := getVotingWeight w.idState sender now
      if weight = 0 then .error .noVotingPower
      else
        let voteID := w.vState.nextVoteID
        let vote : Vote :=
          { voteID := voteID, rumorID := rumorID, voterID := voter.studentID,
            voterWallet := sender, voteType := voteType, voterWeight := weight,
            voterCredibility := voter.credibilityScore, timestamp := now }
        let v1 : VotingState :=
          { nextVoteID := voteID + 1,
            votes := mapUpdate w.vState.votes voteID vote,
            hasVoted := mapUpdate2 w.vState.hasVoted rumorID sender true,
            votesByRumor := mapUpdate w.vState.votesByRumor rumorID
              (w.vState.votesByRumor rumorID ++ [voteID]),
            votesByVoter := mapUpdate w.vState.votesByVoter sender
              (w.vState.votesByVoter sender ++ [voteID]) }
        let weightedVote : Int := solDiv (weight : Int) 100
        match recordVote w.rrState rumorID (voteType = .CONFIRM) weightedVote now with
        | .error _ => .error .registryRevert
        | .ok rr1 =>
          match incrementVoteCount w.idState sender now with
          | .error _ => .error .registryRevert
          | .ok id1 => .ok ({ w with idState := id1, rrState := rr1, vState := v1 }, voteID)

/-- Embeds `CorrelationManager._addCorrelation`. -/
def addCorrelation (w : World) (rumorA rumorB : Nat) (relationType : RelationshipType)
    (aiConfidence now : Nat) : Except CorrErr CorrState :=
  let rumorAData := w.rrState.rumors rumorA
  let rumorBData := w.rrState.rumors rumorB
  if rumorAData.rumorID = 0 then .error .rumorANotFound
  else if rumorBData.rumorID = 0 then .error .rumorBNotFound
  else if rumorAData.status ≠ .ACTIVE then .error .rumorANotActive
  else if rumorBData.status ≠ .ACTIVE then .error .rumorBNotActive
  else
    let timeDiff := if rumorBData.createdAt > rumorAData.createdAt
      then rumorBData.createdAt - rumorAData.createdAt
      else rumorAData.createdAt - rumorBData.createdAt
    if ¬ (timeDiff ≤ CORRELATION_VALIDITY_DAYS * 86400) then .error .tooFarApart
    else if w.cState.correlationExists (rumorA, rumorB) then .error .correlationAlreadyExists
    else if w.cState.correlationExists (rumorB, rumorA) then .error .reverseCorrelationExists
    else
      let corr : Correlation :=
        { rumorA := rumorA, rumorB := rumorB, relationshipType := relationType,
          aiConfidence := aiConfidence, active := true, createdAt := now }
      .ok { correlations := pairMapUpdate w.cState.correlations (rumorA, rumorB) corr,
            correlationExists := pairMapUpdate w.cState.correlationExists (rumorA, rumorB) true,
            correlationsByRumor :=
              mapUpdate
                (mapUpdate w.cState.correlationsByRumor rumorA
                  (w.cState.correlationsByRumor rumorA ++ [(rumorA, rumorB)]))
                rumorB
                ((mapUpdate w.cState.correlationsByRumor rumorA
                  (w.cState.correlationsByRumor rumorA ++ [(rumorA, rumorB)])) rumorB ++ [(rumorA, rumorB)]) }

/-- Embeds `CorrelationManager.addCorrelations` (onlyOracle): batch loop. -/
def addCorrelations (w : World)
    (entries : List (Nat × Nat × RelationshipType × Nat)) (now : Nat) :
    Except CorrErr World :=
  match entries with
  | [] => .ok w
  | (a, b, t, conf) :: rest =>
    match addCorrelation w a b t conf now with
    | .error e => .error e
    | .ok c1 => addCorrelations { w with cState := c1 } rest now

/-- Embeds `CorrelationManager.applyCorrelationBoost`: tallies the four buckets over
active correlations and forwards a non-zero boost to
`RumorRegistry.applyCorrelationBoost`. -/
def applyCorrelationBoostCM (w : World) (rumorID _now : Nat) : Except CorrErr World :=
  let counts := boostCounts w.idState w.rrState w.cState rumorID
  let boost := boostFromCounts counts
  if boost ≠ 0 then
    match applyBoostRR w.rrState rumorID boost with
    | .error _ => .error .registryRevert
    | .ok rr1 => .ok { w with rrState := rr1 }
  else .ok w

/-- Embeds `VerificationController.verifyRumor` (onlyOwner): marks the rumor
verified, delegates the terminal transition to the registry, then adjusts the
author's and every voter's credibility. -/
def verifyRumor (w : World) (rumorID : Nat) (isTrue : Bool) (now : Nat) :
    Except VerifyErr World :=
  if w.verifState.verifiedRumors rumorID then .error .alreadyVerified
  else
    let rumor := w.rrState.rumors rumorID
    if rumor.rumorID = 0 then .error .rumorNotFound
    else
      let vf1 : VerifState :=
        { verifiedRumors := mapUpdate w.verifState.verifiedRumors rumorID true,
          verificationResult := mapUpdate w.verifState.verificationResult rumorID isTrue }
      match setVerificationResult w.rrState rumorID isTrue now with
      | .error _ => .error .registryRevert
      | .ok rr1 =>
        let authorStep :=
          if isTrue then addCredibility w.idState w.tokState rumor.authorWallet AUTHOR_REWARD_TRUE now
          else removeCredibility w.idState w.tokState rumor.authorWallet AUTHOR_PENALTY_FALSE now
        match authorStep with
        | .error _ => .error .identityRevert
        | .ok (id1, tok1) =>
          match processVotes (w.vState.votesByRumor rumorID) w.vState.votes isTrue id1 tok1 now with
          | .error _ => .error .identityRevert
          | .ok (id2, tok2) =>
            .ok { w with idState := id2, tokState := tok2, rrState := rr1, verifState := vf1 }

/-! ## AutomationKeeper -/

/-- The start position of a sweep scan:
`lastCheckedRumorID + 1`, wrapping to 1 when past the end. -/
def sweepStartID (w : World) : Nat :=
  let totalRumors := getTotalRumors w.rrState
  if w.keeper.lastCheckedRumorID + 1 > totalRumors then 1 else w.keeper.lastCheckedRumorID + 1

/-- The scan loop of `AutomationKeeper._findRumorsToLock`: examines up to
`remaining` ids starting at `currentID` (wrapping past `totalRumors`),
collecting up to `batchSize` eligible ids. -/
def findLoop (rr : RumorRegistryState) (now totalRumors batchSize : Nat) :
    Nat → Nat → List Nat → List Nat
  | _, 0, acc => acc
  | currentID, remaining + 1, acc =>
    if acc.length ≥ batchSize then acc
    else
      let acc1 := if isEligibleForLock rr currentID now then acc ++ [currentID] else acc
      let nextID := if currentID + 1 > totalRumors then 1 else currentID + 1
      findLoop rr now totalRumors batchSize nextID remaining acc1

/-- Embeds `AutomationKeeper._findRumorsToLock` (view). -/
def findRumorsToLock (w : World) (now : Nat) : List Nat :=
  let totalRumors := getTotalRumors w.rrState
  findLoop w.rrState now totalRumors w.keeper.batchSize (sweepStartID w) totalRumors []

/-- The shared body of `performUpkeep` and `triggerLocking`: for each
candidate, re-validate eligibility, lock, and deactivate its correlations.
Nothing in either function writes `lastCheckedRumorID`. -/
def lockBatch (w : World) (ids : List Nat) (now : Nat) : Except RumorErr World :=
  match ids with
  | [] => .ok w
  | rid :: rest =>
    if isEligibleForLock w.rrState rid now then
      match lockRumor w.rrState rid now with
      | .error e => .error e
      | .ok rr1 =>
        lockBatch { w with rrState := rr1, cState := deactivateCorrelations w.cState rid } rest now
    else lockBatch w rest now

/-- Embeds `AutomationKeeper.performUpkeep` with `performData` already decoded. -/
def performUpkeep (w : World) (rumorIDs : List Nat) (now : Nat) : Except RumorErr World :=
  lockBatch w rumorIDs now

/-- Embeds `AutomationKeeper.triggerLocking`. -/
def triggerLocking (w : World) (now : Nat) : Except RumorErr World :=
  lockBatch w (findRumorsToLock w now) now

/-! ## World-level wrappers for single-contract entry points -/

def registerStudentW (w : World) (sender emailHMAC : Nat) (sigValid : Bool)
    (now : Nat) : Except IdErr World :=
  (registerStudent w.idState w.tokState sender emailHMAC sigValid now).map
    (fun p => { w with idState := p.1, tokState := p.2 })

def updateCredibilityW (w : World) (wallet newScore now : Nat) : Except IdErr World :=
  (updateCredibility w.idState wallet newScore now).map (fun id1 => { w with idState := id1 })

def addCredibilityW (w : World) (wallet points now : Nat) : Except IdErr World :=
  (addCredibility w.idState w.tokState wallet points now).map
    (fun p => { w with idState := p.1, tokState := p.2 })

def removeCredibilityW (w : World) (wallet points now : Nat) : Except IdErr World :=
  (removeCredibility w.idState w.tokState wallet points now).map
    (fun p => { w with idState := p.1, tokState := p.2 })

def incrementPostCountW (w : World) (wallet now : Nat) : Except IdErr World :=
  (incrementPostCount w.idState wallet now).map (fun id1 => { w with idState := id1 })

def incrementVoteCountW (w : World) (wallet now : Nat) : Except IdErr World :=
  (incrementVoteCount w.idState wallet now).map (fun id1 => { w with idState := id1 })

def recordVoteW (w : World) (rumorID : Nat) (isConfirm : Bool) (weight : Int)
    (now : Nat) : Except RumorErr World :=
  (recordVote w.rrState rumorID isConfirm weight now).map (fun rr1 => { w with rrState := rr1 })

def lockRumorW (w : World) (rumorID now : Nat) : Except RumorErr World :=
  (lockRumor w.rrState rumorID now).map (fun rr1 => { w with rrState := rr1 })

def deleteRumorW (w : World) (sender rumorID now : Nat) : Except RumorErr World :=
  (deleteRumor w.rrState sender rumorID now).map (fun rr1 => { w with rrState := rr1 })

def setVerificationResultW (w : World) (rumorID : Nat) (isTrue : Bool)
    (now : Nat) : Except RumorErr World :=
  (setVerificationResult w.rrState rumorID isTrue now).map (fun rr1 => { w with rrState := rr1 })

def applyBoostRRW (w : World) (rumorID : Nat) (boost : Int) : Except RumorErr World :=
  (applyBoostRR w.rrState rumorID boost).map (fun rr1 => { w with rrState := rr1 })

def addTrustBonusW (w : World) (rumorID : Nat) (bonus : Int) : Except RumorErr World :=
  (addTrustBonus w.rrState rumorID bonus).map (fun rr1 => { w with rrState := rr1 })

def deactivateCorrelationsW (w : World) (rumorID : Nat) : World :=
  { w with cState := deactivateCorrelations w.cState rumorID }

def tokenMintW (w : World) (toAddr amount : Nat) : World :=
  { w with tokState := tokenMint w.tokState toAddr amount }

def tokenBurnW (w : World) (fromAddr amount : Nat) : World :=
  { w with tokState := tokenBurn w.tokState fromAddr amount }

/-- One successful externally-observable state transition of the composed
system: every mutating entry point of the six contracts. -/
inductive WorldStep : World → World → Prop where
  | register {w w1 : World} (sender emailHMAC : Nat) (sigValid : Bool) (now : Nat)
      (h : registerStudentW w sender emailHMAC sigValid now = .ok w1) : WorldStep w w1
  | updateCred {w w1 : World} (wallet newScore now : Nat)
      (h : updateCredibilityW w wallet newScore now = .ok w1) : WorldStep w w1
  | addCred {w w1 : World} (wallet points now : Nat)
      (h : addCredibilityW w wallet points now = .ok w1) : WorldStep w w1
  | removeCred {w w1 : World} (wallet points now : Nat)
      (h : removeCredibilityW w wallet points now = .ok w1) : WorldStep w w1
  | incPost {w w1 : World} (wallet now : Nat)
      (h : incrementPostCountW w wallet now = .ok w1) : WorldStep w w1
  | incVote {w w1 : World} (wallet now : Nat)
      (h : incrementVoteCountW w wallet now = .ok w1) : WorldStep w w1
  | create {w w1 : World} (sender : Nat) (ch : String) (ev kw : List String) (now rid : Nat)
      (h : createRumor w sender ch ev kw now = .ok (w1, rid)) : WorldStep w w1
  | vote {w w1 : World} (sender rumorID : Nat) (vt : VoteType) (now vid : Nat)
      (h : voteOnRumor w sender rumorID vt now = .ok (w1, vid)) : WorldStep w w1
  | recordVoteDirect {w w1 : World} (rumorID : Nat) (isConfirm : Bool) (weight : Int)
      (now : Nat) (h : recordVoteW w rumorID isConfirm weight now = .ok w1) :
      WorldStep w w1
  | lock {w w1 : World} (rumorID now : Nat)
      (h : lockRumorW w rumorID now = .ok w1) : WorldStep w w1
  | delete {w w1 : World} (sender rumorID now : Nat)
      (h : deleteRumorW w sender rumorID now = .ok w1) : WorldStep w w1
  | setResult {w w1 : World} (rumorID : Nat) (isTrue : Bool) (now : Nat)
      (h : setVerificationResultW w rumorID isTrue now = .ok w1) : WorldStep w w1
  | boostRR {w w1 : World} (rumorID : Nat) (boost : Int)
      (h : applyBoostRRW w rumorID boost = .ok w1) : WorldStep w w1
  | trustBonus {w w1 : World} (rumorID : Nat) (bonus : Int)
      (h : addTrustBonusW w rumorID bonus = .ok w1) : WorldStep w w1
  | addCorrs {w w1 : World} (entries : List (Nat × Nat × RelationshipType × Nat))
      (now : Nat) (h : addCorrelations w entries now = .ok w1) : WorldStep w w1
  | boostCM {w w1 : World} (rumorID now : Nat)
      (h : applyCorrelationBoostCM w rumorID now = .ok w1) : WorldStep w w1
  | deactivate {w w1 : World} (rumorID : Nat)
      (h : deactivateCorrelationsW w rumorID = w1) : WorldStep w w1
  | verify {w w1 : World} (rumorID : Nat) (isTrue : Bool) (now : Nat)
      (h : verifyRumor w rumorID isTrue now = .ok w1) : WorldStep w w1
  | upkeep {w w1 : World} (rumorIDs : List Nat) (now : Nat)
      (h : performUpkeep w rumorIDs now = .ok w1) : WorldStep w w1
  | trigger {w w1 : World} (now : Nat)
      (h : triggerLocking w now = .ok w1) : WorldStep w w1
  | mintDirect {w w1 : World} (toAddr amount : Nat)
      (h : tokenMintW w toAddr amount = w1) : WorldStep w w1
  | burnDirect {w w1 : World} (fromAddr amount : Nat)
      (h : tokenBurnW w fromAddr amount = w1) : WorldStep w w1

/-- Reachability by any sequence of successful operations. -/
def WorldReachable : World → World → Prop := Relation.ReflTransGen WorldStep

/-! ## Specification predicates -/

/-- Credibility score of a wallet in a world. -/
def credOf (w : World) (wallet : Nat) : Nat :=
  (w.idState.students wallet).credibilityScore

/-- Invariant of the identity subsystem: a registered identity with zero
credibility is BLOCKED. -/
def IdInv (st : IdentityState) : Prop :=
  ∀ wallet, (st.students wallet).studentID ≠ 0 →
    (st.students wallet).credibilityScore = 0 →
    (st.students wallet).status = .BLOCKED

/-- Number of stored `Vote` records with id in `[1, n)` that reference the
pair (rumor `r`, voter wallet `wallet`). -/
def pairVoteCount (votes : Nat → Vote) : Nat → Nat → Nat → Nat
  | 0, _, _ => 0
  | m + 1, r, wallet =>
    pairVoteCount votes m r wallet +
      (if 1 ≤ m ∧ (votes m).rumorID = r ∧ (votes m).voterWallet = wallet then 1 else 0)

/-- Number of `Vote` records that ever existed for the pair. -/
def votesForPair (v : VotingState) (r wallet : Nat) : Nat :=
  pairVoteCount v.votes v.nextVoteID r wallet

/-- Invariant of the voting subsystem: vote ids start at 1, an unvoted pair
has no record, and every pair has at most one record. -/
def VInv (v : VotingState) : Prop :=
  1 ≤ v.nextVoteID ∧
  (∀ r wallet, v.hasVoted r wallet = false → votesForPair v r wallet = 0) ∧
  (∀ r wallet, votesForPair v r wallet ≤ 1)

/-- Reward/penalty magnitude per vote type in `verifyRumor` (confirm 1,
dispute 2). -/
def voteMagnitude (vt : VoteType) : Nat := if vt = .CONFIRM then 1 else 2

/-- Embeds `votedCorrectly` of `verifyRumor`. -/
def votedCorrectlyB (isTrue : Bool) (vt : VoteType) : Bool :=
  (isTrue && decide (vt = .CONFIRM)) || (!isTrue && !(decide (vt = .CONFIRM)))

/-! ## Concrete states used by counterexamples and witnesses -/

def mkStudent (sid wallet score : Nat) (ust : UserStatus) (power : Nat) : Student :=
  { Student.empty with
    studentID := sid, walletAddress := wallet,
    credibilityScore := score, status := ust, votingPower := power }

def mkActiveRumor (rid aid awallet : Nat) (conf : Int) (created : Nat) : Rumor :=
  { Rumor.empty with
    rumorID := rid, authorID := aid, authorWallet := awallet,
    initialConfidence := conf, currentConfidence := conf, status := .ACTIVE,
    visible := true, createdAt := created }

/-- A registry holding one VERIFIED rumor (id 1, author wallet 7). -/
def c1rr : RumorRegistryState :=
  { nextRumorID := 2,
    rumors := mapUpdate (fun _ => Rumor.empty) 1
      { mkActiveRumor 1 1 7 20 0 with status := .VERIFIED },
    tombstones := fun _ => Tombstone.empty,
    rumorsByAuthor := fun _ => [] }

def c1del : RumorRegistryState := (deleteRumor c1rr 7 1 1000).toOption.getD c1rr

def c1flip : RumorRegistryState :=
  (setVerificationResult c1rr 1 false 1000).toOption.getD c1rr

/-- Three CREDIBLE authors (wallets 10/11/12), three ACTIVE rumors, and two
SUPPORTIVE correlations (1,2) and (1,3). -/
def c2World : World :=
  { World.init with
    idState :=
      { nextStudentID := 4,
        students := mapUpdate (mapUpdate (mapUpdate (fun _ => Student.empty)
          10 (mkStudent 1 10 50 .CREDIBLE_USER 12000))
          11 (mkStudent 2 11 50 .CREDIBLE_USER 12000))
          12 (mkStudent 3 12 50 .CREDIBLE_USER 12000),
        emailHMACUsed := fun _ => false,
        studentIDToWallet := mapUpdate (mapUpdate (mapUpdate (fun _ => 0) 1 10) 2 11) 3 12 },
    rrState :=
      { nextRumorID := 4,
        rumors := mapUpdate (mapUpdate (mapUpdate (fun _ => Rumor.empty)
          1 (mkActiveRumor 1 1 10 (-10) 0))
          2 (mkActiveRumor 2 2 11 (-10) 0))
          3 (mkActiveRumor 3 3 12 (-10) 0),
        tombstones := fun _ => Tombstone.empty,
        rumorsByAuthor := fun _ => [] },
    cState :=
      { correlations := pairMapUpdate (pairMapUpdate (fun _ => Correlation.empty)
          (1, 2) { rumorA := 1, rumorB := 2, relationshipType := .SUPPORTIVE,
                   aiConfidence := 90, active := true, createdAt := 0 })
          (1, 3) { rumorA := 1, rumorB := 3, relationshipType := .SUPPORTIVE,
                   aiConfidence := 90, active := true, createdAt := 0 },
        correlationExists := pairMapUpdate (pairMapUpdate (fun _ => false) (1, 2) true) (1, 3) true,
        correlationsByRumor :=
          mapUpdate (mapUpdate (mapUpdate (fun _ => []) 1 [(1, 2), (1, 3)]) 2 [(1, 2)]) 3 [(1, 3)] } }

def c2After : World := (deleteRumorW c2World 11 2 500).toOption.getD c2World

def c2Boosted : World := (applyCorrelationBoostCM c2After 1 500).toOption.getD c2After

/-- What the claim expects deletion to have done: correlations of rumor 2
explicitly deactivated. -/
def c2Fixed : World := deactivateCorrelationsW c2After 2

/-- A world with one registered NEW_USER author (wallet 5). -/
def c3World : World :=
  { World.init with
    idState :=
      { nextStudentID := 2,
        students := mapUpdate (fun _ => Student.empty) 5 (mkStudent 1 5 10 .NEW_USER 2500),
        emailHMACUsed := fun _ => false,
        studentIDToWallet := mapUpdate (fun _ => 0) 1 5 } }

def c3Created : World × Nat :=
  (createRumor c3World 5 "" (List.replicate 25 "") [] 86401).toOption.getD (c3World, 0)

/-- A registry with one ACTIVE rumor (id 1, author wallet 9, confidence 0). -/
def c3rr : RumorRegistryState :=
  { nextRumorID := 2,
    rumors := mapUpdate (fun _ => Rumor.empty) 1 (mkActiveRumor 1 1 9 0 0),
    tombstones := fun _ => Tombstone.empty,
    rumorsByAuthor := fun _ => [] }

def c3rec : RumorRegistryState := (recordVote c3rr 1 true 100 5).toOption.getD c3rr

def c3boost : RumorRegistryState := (applyBoostRR c3rr 1 150).toOption.getD c3rr

def c3bonus : RumorRegistryState := (addTrustBonus c3rr 1 (-250)).toOption.getD c3rr

def c3lock : RumorRegistryState := (lockRumor c3rr 1 604800).toOption.getD c3rr

def c3ver : RumorRegistryState := (setVerificationResult c3rr 1 true 5).toOption.getD c3rr

def c3del : RumorRegistryState := (deleteRumor c3rr 9 1 5).toOption.getD c3rr

/-- Voting scenario: rumor 1 (author wallet 9); wallet 3 has already voted;
wallet 4 has not. -/
def c5World : World :=
  { World.init with
    idState :=
      { nextStudentID := 4,
        students := mapUpdate (mapUpdate (mapUpdate (fun _ => Student.empty)
          3 (mkStudent 1 3 50 .CREDIBLE_USER 10000))
          9 (mkStudent 2 9 50 .CREDIBLE_USER 10000))
          4 (mkStudent 3 4 50 .CREDIBLE_USER 10000),
        emailHMACUsed := fun _ => false,
        studentIDToWallet := mapUpdate (mapUpdate (mapUpdate (fun _ => 0) 1 3) 2 9) 3 4 },
    rrState :=
      { nextRumorID := 2,
        rumors := mapUpdate (fun _ => Rumor.empty) 1 (mkActiveRumor 1 2 9 (-10) 0),
        tombstones := fun _ => Tombstone.empty,
        rumorsByAuthor := fun _ => [] },
    vState := { World.init.vState with
                hasVoted := mapUpdate2 (fun _ _ => false) 1 3 true } }

def c5Voted : World := ((voteOnRumor c5World 4 1 .CONFIRM 5).toOption.getD (c5World, 0)).1

def c6w1 : World := (registerStudentW World.init 5 99 true 0).toOption.getD World.init

def c6w2 : World := (updateCredibilityW c6w1 5 0 0).toOption.getD c6w1

/-- Verification scenario: rumor 1 by author wallet 1 (score 40); vote 1 is a
CONFIRM by wallet 2 (score 40), vote 2 a DISPUTE by wallet 3 (score 10). -/
def c7World : World :=
  { World.init with
    idState :=
      { nextStudentID := 4,
        students := mapUpdate (mapUpdate (mapUpdate (fun _ => Student.empty)
          1 (mkStudent 1 1 40 .CREDIBLE_USER 10000))
          2 (mkStudent 2 2 40 .CREDIBLE_USER 10000))
          3 (mkStudent 3 3 10 .NEW_USER 2500),
        emailHMACUsed := fun _ => false,
        studentIDToWallet := mapUpdate (mapUpdate (mapUpdate (fun _ => 0) 1 1) 2 2) 3 3 },
    rrState :=
      { nextRumorID := 2,
        rumors := mapUpdate (fun _ => Rumor.empty) 1 (mkActiveRumor 1 1 1 (-10) 0),
        tombstones := fun _ => Tombstone.empty,
        rumorsByAuthor := fun _ => [] },
    vState :=
      { nextVoteID := 3,
        votes := mapUpdate (mapUpdate (fun _ => Vote.empty)
          1 { voteID := 1, rumorID := 1, voterID := 2, voterWallet := 2,
              voteType := .CONFIRM, voterWeight := 10000, voterCredibility := 40,
              timestamp := 10 })
          2 { voteID := 2, rumorID := 1, voterID := 3, voterWallet := 3,
              voteType := .DISPUTE, voterWeight := 2500, voterCredibility := 10,
              timestamp := 11 },
        hasVoted := mapUpdate2 (mapUpdate2 (fun _ _ => false) 1 2 true) 1 3 true,
        votesByRumor := mapUpdate (fun _ => []) 1 [1, 2],
        votesByVoter := mapUpdate (mapUpdate (fun _ => []) 2 [1]) 3 [2] } }

def c7After : World := (verifyRumor c7World 1 false 100).toOption.getD c7World

/-- One ACTIVE rumor past its 7-day deadline; keeper checkpoint at 0. -/
def c8World : World :=
  { World.init with
    rrState :=
      { nextRumorID := 2,
        rumors := mapUpdate (fun _ => Rumor.empty) 1 (mkActiveRumor 1 1 9 (-10) 0),
        tombstones := fun _ => Tombstone.empty,
        rumorsByAuthor := fun _ => [] } }

def c8Swept : World := (triggerLocking c8World 700000).toOption.getD c8World

/-- Identity registry with one registered wallet (4, score 5) for the
clamped-penalty witness. -/
def c9id : IdentityState :=
  { nextStudentID := 2,
    students := mapUpdate (fun _ => Student.empty) 4 (mkStudent 1 4 5 .NEW_USER 2500),
    emailHMACUsed := fun _ => false,
    studentIDToWallet := mapUpdate (fun _ => 0) 1 4 }

def c9tok : TokenState := { balances := mapUpdate (fun _ => 0) 4 5 }

/-- An ACTIVE rumor past its deadline, so that the successful `recordVote`
in the C10 witness takes the locking branch too. -/
def c10rr : RumorRegistryState :=
  { nextRumorID := 2,
    rumors := mapUpdate (fun _ => Rumor.empty) 1 (mkActiveRumor 1 1 9 (-15) 0),
    tombstones := fun _ => Tombstone.empty,
    rumorsByAuthor := fun _ => [] }

def c10rec : RumorRegistryState := (recordVote c10rr 1 true 100 700000).toOption.getD c10rr

/-! ## Generic helper lemmas -/

theorem map_eq_ok {ε α β : Type} (f : α → β) (e : Except ε α) (b : β)
    (h : Except.map f e = .ok b) : ∃ a, e = .ok a ∧ b = f a := by
  cases e with
  | error x => simp [Except.map] at h
  | ok a =>
    refine ⟨a, rfl, ?_⟩
    simp [Except.map] at h
    exact h.symm

theorem mapUpdate_hit {α : Type} (m : Nat → α) (k : Nat) (v : α) :
    mapUpdate m k v k = v := by
  simp [mapUpdate]

theorem mapUpdate_miss {α : Type} (m : Nat → α) (k u : Nat) (v : α) (h : u ≠ k) :
    mapUpdate m k v u = m u := by
  simp [mapUpdate, h]

theorem clampConfidence_bounds (x : Int) :
    MIN_CONFIDENCE ≤ clampConfidence x ∧ clampConfidence x ≤ MAX_CONFIDENCE := by
  simp only [clampConfidence, MIN_CONFIDENCE, MAX_CONFIDENCE]
  split_ifs <;> omega

/-- When the rumor enters `_updateConfidence` in a non-LOCKED status the 95/5
blend is skipped and the stored confidence is the clamped raw recomputation. -/
theorem updateConfidenceFn_conf (r : Rumor) (now : Nat) (h : r.status = .ACTIVE) :
    (updateConfidenceFn r now).currentConfidence =
      clampConfidence (r.initialConfidence + (r.weightedConfirmScore - r.weightedDisputeScore)) := by
  simp only [updateConfidenceFn]
  split_ifs with h1 h2
  · rfl
  · rw [h] at h2; cases h2
  · rfl

/-! ## Registry single-operation lemmas -/

theorem recordVote_ok_inv (rr : RumorRegistryState) (rumorID : Nat) (isConfirm : Bool)
    (weight : Int) (now : Nat) (rr' : RumorRegistryState)
    (h : recordVote rr rumorID isConfirm weight now = .ok rr') :
    (rr.rumors rumorID).rumorID ≠ 0 ∧ (rr.rumors rumorID).status = .ACTIVE ∧
    (rr'.rumors rumorID).currentConfidence =
      clampConfidence ((rr.rumors rumorID).initialConfidence +
        (((rr.rumors rumorID).weightedConfirmScore + (if isConfirm then weight else 0)) -
         ((rr.rumors rumorID).weightedDisputeScore + (if isConfirm then 0 else weight)))) := by
  unfold recordVote at h
  by_cases h0 : (rr.rumors rumorID).rumorID = 0
  · simp [h0] at h
  by_cases h1 : (rr.rumors rumorID).status = .ACTIVE
  · refine ⟨h0, h1, ?_⟩
    simp only [if_neg h0, h1, if_neg (by simp : ¬ (RumorStatus.ACTIVE ≠ RumorStatus.ACTIVE)),
      Except.ok.injEq] at h
    subst h
    cases hc : isConfirm <;>
      simp only [hc, if_true, if_false, Bool.false_eq_true, mapUpdate_hit] <;>
      rw [updateConfidenceFn_conf _ _ (by simp [h1])] <;>
      simp [h1]
  · exfalso
    simp [h0, h1] at h

theorem applyBoostRR_ok_inv (rr : RumorRegistryState) (rumorID : Nat) (boost : Int)
    (rr' : RumorRegistryState) (h : applyBoostRR rr rumorID boost = .ok rr') :
    (rr'.rumors rumorID).currentConfidence =
      clampConfidence ((rr.rumors rumorID).currentConfidence + boost) := by
  unfold applyBoostRR at h
  by_cases h0 : (rr.rumors rumorID).rumorID = 0
  · simp [h0] at h
  by_cases h1 : (rr.rumors rumorID).status = .ACTIVE
  · simp only [if_neg h0, h1, if_neg (by simp : ¬ (RumorStatus.ACTIVE ≠ RumorStatus.ACTIVE)),
      Except.ok.injEq] at h
    subst h
    simp [mapUpdate_hit]
  · exfalso
    simp [h0, h1] at h

theorem addTrustBonus_ok_inv (rr : RumorRegistryState) (rumorID : Nat) (bonus : Int)
    (rr' : RumorRegistryState) (h : addTrustBonus rr rumorID bonus = .ok rr') :
    (rr'.rumors rumorID).currentConfidence =
      clampConfidence ((rr.rumors rumorID).currentConfidence + bonus) := by
  unfold addTrustBonus at h
  by_cases h0 : (rr.rumors rumorID).rumorID = 0
  · simp [h0] at h
  by_cases h1 : (rr.rumors rumorID).status = .ACTIVE
  · simp only [if_neg h0, h1, if_neg (by simp : ¬ (RumorStatus.ACTIVE ≠ RumorStatus.ACTIVE)),
      Except.ok.injEq] at h
    subst h
    simp [mapUpdate_hit]
  · exfalso
    simp [h0, h1] at h

theorem lockRumor_ok_inv (rr : RumorRegistryState) (rumorID now : Nat)
    (rr' : RumorRegistryState) (h : lockRumor rr rumorID now = .ok rr') :
    (rr'.rumors rumorID).currentConfidence = (rr.rumors rumorID).currentConfidence := by
  unfold lockRumor at h
  by_cases h0 : (rr.rumors rumorID).rumorID = 0
  · simp [h0] at h
  by_cases h1 : (rr.rumors rumorID).status = .ACTIVE
  · by_cases h2 : now ≥ (rr.rumors rumorID).createdAt + LOCK_DURATION
    · simp only [if_neg h0, h1, if_neg (by simp : ¬ (RumorStatus.ACTIVE ≠ RumorStatus.ACTIVE)),
        if_neg (not_not_intro h2), Except.ok.injEq] at h
      subst h
      simp [mapUpdate_hit]
    · exfalso
      simp [h0, h1, h2] at h
  · exfalso
    simp [h0, h1] at h

theorem setVerificationResult_ok_inv (rr : RumorRegistryState) (rumorID : Nat)
    (isTrue : Bool) (now : Nat) (rr' : RumorRegistryState)
    (h : setVerificationResult rr rumorID isTrue now = .ok rr') :
    (rr'.rumors rumorID).currentConfidence = (rr.rumors rumorID).currentConfidence := by
  unfold setVerificationResult at h
  by_cases h0 : (rr.rumors rumorID).rumorID = 0
  · simp [h0] at h
  · simp only [if_neg h0, Except.ok.injEq] at h
    subst h
    simp [mapUpdate_hit]

theorem deleteRumor_ok_inv (rr : RumorRegistryState) (sender rumorID now : Nat)
    (rr' : RumorRegistryState) (h : deleteRumor rr sender rumorID now = .ok rr') :
    (rr'.rumors rumorID).currentConfidence = (rr.rumors rumorID).currentConfidence := by
  unfold deleteRumor at h
  by_cases h0 : (rr.rumors rumorID).rumorID = 0
  · simp [h0] at h
  by_cases h1 : (rr.rumors rumorID).authorWallet = sender
  · by_cases h2 : (rr.rumors rumorID).status = .LOCKED
    · exfalso
      simp [h0, h1, h2] at h
    · simp only [if_neg h0, h1, if_neg (by simp : ¬ (sender ≠ sender)), if_neg h2,
        Except.ok.injEq] at h
      subst h
      simp [mapUpdate_hit]
  · exfalso
    simp [h0, h1] at h

theorem createRumor_ok_inv (w : World) (sender : Nat) (ch : String)
    (ev kw : List String) (now : Nat) (w1 : World) (rid : Nat)
    (h : createRumor w sender ch ev kw now = .ok (w1, rid)) :
    (w1.rrState.rumors rid).currentConfidence =
      calculateInitialConfidence (w.idState.students sender).status
        (decide (ev.length > 0)) ev.length ∧
    w1.vState = w.vState ∧
    ∃ id1, incrementPostCount w.idState sender now = .ok id1 ∧ w1.idState = id1 := by
  unfold createRumor at h
  by_cases h0 : (w.idState.students sender).studentID = 0
  · simp [h0] at h
  by_cases h1 : (w.idState.students sender).status = .BLOCKED
  · exfalso
    simp [h0, h1] at h
  by_cases h2 : (canPost w.idState sender now).1 = true
  · simp only [if_neg h0, if_neg h1, h2, if_neg (by simp : ¬ (true ≠ true))] at h
    cases hinc : incrementPostCount w.idState sender now with
    | error e => rw [hinc] at h; cases h
    | ok id1 =>
      rw [hinc] at h
      simp only [if_neg (not_not_intro trivial), Except.ok.injEq, Prod.mk.injEq] at h
      obtain ⟨hw, hr⟩ := h
      subst hw
      subst hr
      refine ⟨?_, rfl, id1, rfl, rfl⟩
      simp [mapUpdate_hit]
  · exfalso
    simp [h0, h1, h2] at h

/-! ## _updateStatus lemmas -/

theorem updateStatusFn_score (s : Student) (now : Nat) :
    (updateStatusFn s now).credibilityScore = s.credibilityScore := by
  simp only [updateStatusFn]
  split_ifs <;> rfl

theorem updateStatusFn_id (s : Student) (now : Nat) :
    (updateStatusFn s now).studentID = s.studentID := by
  simp only [updateStatusFn]
  split_ifs <;> rfl

theorem updateStatusFn_blocked (s : Student) (now : Nat) (h : s.credibilityScore = 0) :
    (updateStatusFn s now).status = .BLOCKED := by
  simp only [updateStatusFn]
  split_ifs <;> rfl

/-! ## Claim C1 -/

/-- C1 counterexample: VERIFIED is not terminal.  In a registry whose rumor 1
is VERIFIED, the author (wallet 7) can call `deleteRumor`, which succeeds and
moves the status to DELETED, and `setVerificationResult` can be called again
with the opposite verdict, moving the status to DEBUNKED. -/
theorem c1_terminal_counterexample :
    (c1rr.rumors 1).status = .VERIFIED ∧
    deleteRumor c1rr 7 1 1000 = .ok c1del ∧
    (c1del.rumors 1).status = .DELETED ∧
    setVerificationResult c1rr 1 false 1000 = .ok c1flip ∧
    (c1flip.rumors 1).status = .DEBUNKED :=
  ⟨rfl, rfl, rfl, rfl, rfl⟩

/-- C1 (amended): for a rumor in a terminal status (VERIFIED or DEBUNKED),
`recordVote`, `lockRumor`, `applyCorrelationBoost` and `addTrustBonus` all
revert, leaving status and confidence unchanged; but `deleteRumor` (by the
author) and `setVerificationResult` are not guarded and can still change the
status. -/
theorem c1_terminal_amended (rr : RumorRegistryState) (rumorID : Nat)
    (h : (rr.rumors rumorID).status = .VERIFIED ∨ (rr.rumors rumorID).status = .DEBUNKED) :
    (∀ isConfirm weight now, isOkE (recordVote rr rumorID isConfirm weight now) = false) ∧
    (∀ now, isOkE (lockRumor rr rumorID now) = false) ∧
    (∀ boost, isOkE (applyBoostRR rr rumorID boost) = false) ∧
    (∀ bonus, isOkE (addTrustBonus rr rumorID bonus) = false) := by
  have hs : ¬ (rr.rumors rumorID).status = .ACTIVE := by
    rcases h with h | h <;> simp [h]
  refine ⟨?_, ?_, ?_, ?_⟩
  · intro c wgt now
    by_cases h0 : (rr.rumors rumorID).rumorID = 0 <;> simp [recordVote, h0, hs, isOkE]
  · intro now
    by_cases h0 : (rr.rumors rumorID).rumorID = 0 <;> simp [lockRumor, h0, hs, isOkE]
  · intro b
    by_cases h0 : (rr.rumors rumorID).rumorID = 0 <;> simp [applyBoostRR, h0, hs, isOkE]
  · intro b
    by_cases h0 : (rr.rumors rumorID).rumorID = 0 <;> simp [addTrustBonus, h0, hs, isOkE]

/-- C1 witness: the amended guarantees evaluated on the concrete VERIFIED
rumor of `c1rr`. -/
theorem c1_terminal_amended_witness :
    ((c1rr.rumors 1).status = .VERIFIED ∨ (c1rr.rumors 1).status = .DEBUNKED) ∧
    isOkE (recordVote c1rr 1 true 7 0) = false ∧
    isOkE (lockRumor c1rr 1 700000) = false ∧
    isOkE (applyBoostRR c1rr 1 30) = false ∧
    isOkE (addTrustBonus c1rr 1 30) = false :=
  have hc := c1_terminal_amended c1rr 1 (Or.inl rfl)
  ⟨Or.inl rfl, hc.1 true 7 0, hc.2.1 700000, hc.2.2.1 30, hc.2.2.2 30⟩

/-! ## Claim C3 -/

/-- C3 counterexample: `createRumor` stores the unclamped initial confidence.
A NEW_USER author submitting 25 evidence files gets
`-20 + 5 * 25 = 105 > 100`, so the claimed range invariant fails immediately
after creation. -/
theorem c3_creation_unclamped_counterexample :
    createRumor c3World 5 "" (List.replicate 25 "") [] 86401 = .ok c3Created ∧
    (c3Created.1.rrState.rumors 1).currentConfidence = 105 ∧
    ¬ ((c3Created.1.rrState.rumors 1).currentConfidence ≤ MAX_CONFIDENCE) :=
  ⟨rfl, rfl, by decide⟩

/-- C3 (amended): after every successful `recordVote`,
`applyCorrelationBoost` and `addTrustBonus` the stored confidence lies in
[-100, 100]; `lockRumor`, `setVerificationResult` and `deleteRumor` leave
`currentConfidence` unchanged; but `createRumor` stores the raw formula
`base + 5 * evidenceCount` unclamped, which exceeds 100 for large evidence
lists. -/
theorem c3_confidence_range_amended :
    (∀ rr rid c wgt now rr', recordVote rr rid c wgt now = .ok rr' →
       MIN_CONFIDENCE ≤ (rr'.rumors rid).currentConfidence ∧
       (rr'.rumors rid).currentConfidence ≤ MAX_CONFIDENCE) ∧
    (∀ rr rid b rr', applyBoostRR rr rid b = .ok rr' →
       MIN_CONFIDENCE ≤ (rr'.rumors rid).currentConfidence ∧
       (rr'.rumors rid).currentConfidence ≤ MAX_CONFIDENCE) ∧
    (∀ rr rid b rr', addTrustBonus rr rid b = .ok rr' →
       MIN_CONFIDENCE ≤ (rr'.rumors rid).currentConfidence ∧
       (rr'.rumors rid).currentConfidence ≤ MAX_CONFIDENCE) ∧
    (∀ rr rid now rr', lockRumor rr rid now = .ok rr' →
       (rr'.rumors rid).currentConfidence = (rr.rumors rid).currentConfidence) ∧
    (∀ rr rid b now rr', setVerificationResult rr rid b now = .ok rr' →
       (rr'.rumors rid).currentConfidence = (rr.rumors rid).currentConfidence) ∧
    (∀ rr s rid now rr', deleteRumor rr s rid now = .ok rr' →
       (rr'.rumors rid).currentConfidence = (rr.rumors rid).currentConfidence) ∧
    (∀ w s ch ev kw now w1 rid, createRumor w s ch ev kw now = .ok (w1, rid) →
       (w1.rrState.rumors rid).currentConfidence =
         calculateInitialConfidence (w.idState.students s).status
           (decide (ev.length > 0)) ev.length) := by
  refine ⟨?_, ?_, ?_, ?_, ?_, ?_, ?_⟩
  · intro rr rid c wgt now rr' h
    rw [(recordVote_ok_inv rr rid c wgt now rr' h).2.2]
    exact clampConfidence_bounds _
  · intro rr rid b rr' h
    rw [applyBoostRR_ok_inv rr rid b rr' h]
    exact clampConfidence_bounds _
  · intro rr rid b rr' h
    rw [addTrustBonus_ok_inv rr rid b rr' h]
    exact clampConfidence_bounds _
  · intro rr rid now rr' h
    exact lockRumor_ok_inv rr rid now rr' h
  · intro rr rid b now rr' h
    exact setVerificationResult_ok_inv rr rid b now rr' h
  · intro rr s rid now rr' h
    exact deleteRumor_ok_inv rr s rid now rr' h
  · intro w s ch ev kw now w1 rid h
    exact (createRumor_ok_inv w s ch ev kw now w1 rid h).1

/-- C3 witness: all seven amended guarantees evaluated at concrete successful
operations on `c3rr` / `c3World`. -/
theorem c3_confidence_range_witness :
    (MIN_CONFIDENCE ≤ (c3rec.rumors 1).currentConfidence ∧
      (c3rec.rumors 1).currentConfidence ≤ MAX_CONFIDENCE) ∧
    (MIN_CONFIDENCE ≤ (c3boost.rumors 1).currentConfidence ∧
      (c3boost.rumors 1).currentConfidence ≤ MAX_CONFIDENCE) ∧
    (MIN_CONFIDENCE ≤ (c3bonus.rumors 1).currentConfidence ∧
      (c3bonus.rumors 1).currentConfidence ≤ MAX_CONFIDENCE) ∧
    (c3lock.rumors 1).currentConfidence = (c3rr.rumors 1).currentConfidence ∧
    (c3ver.rumors 1).currentConfidence = (c3rr.rumors 1).currentConfidence ∧
    (c3del.rumors 1).currentConfidence = (c3rr.rumors 1).currentConfidence ∧
    (c3Created.1.rrState.rumors 1).currentConfidence =
      calculateInitialConfidence (c3World.idState.students 5).status
        (decide ((List.replicate 25 "").length > 0)) (List.replicate 25 "").length :=
  ⟨c3_confidence_range_amended.1 c3rr 1 true 100 5 c3rec rfl,
   c3_confidence_range_amended.2.1 c3rr 1 150 c3boost rfl,
   c3_confidence_range_amended.2.2.1 c3rr 1 (-250) c3bonus rfl,
   c3_confidence_range_amended.2.2.2.1 c3rr 1 604800 c3lock rfl,
   c3_confidence_range_amended.2.2.2.2.1 c3rr 1 true 5 c3ver rfl,
   c3_confidence_range_amended.2.2.2.2.2.1 c3rr 9 1 5 c3del rfl,
   c3_confidence_range_amended.2.2.2.2.2.2 c3World 5 "" (List.replicate 25 "") [] 86401
     c3Created.1 1 rfl⟩

/-! ## Claim C4 -/

/-- C4 counterexample: the default branch of `_calculateInitialConfidence`
returns a flat -15 and ignores the evidence bonus, so for a BLOCKED-status
author with 1 evidence file the claimed formula `-15 + 5 * 1 = -10` does not
hold. -/
theorem c4_default_base_counterexample :
    calculateInitialConfidence .BLOCKED true 1 = -15 ∧
    ¬ (calculateInitialConfidence .BLOCKED true 1 = -15 + 5 * 1) := by
  refine ⟨rfl, by decide⟩

/-- C4 (amended): the initial confidence of a created rumor is
`base + 5 * evidenceCount` with base -20 for NEW_USER, -10 for CREDIBLE_USER
and -30 for DISCREDITED; for any other author status the result is a flat
-15 with no evidence term.  A CREDIBLE author with 2 evidence files gets 0. -/
theorem c4_initial_confidence_amended (ev : List String) :
    calculateInitialConfidence .NEW_USER (decide (ev.length > 0)) ev.length
      = -20 + 5 * (ev.length : Int) ∧
    calculateInitialConfidence .CREDIBLE_USER (decide (ev.length > 0)) ev.length
      = -10 + 5 * (ev.length : Int) ∧
    calculateInitialConfidence .DISCREDITED (decide (ev.length > 0)) ev.length
      = -30 + 5 * (ev.length : Int) ∧
    (∀ he c, calculateInitialConfidence .NONE he c = -15) ∧
    (∀ he c, calculateInitialConfidence .BLOCKED he c = -15) ∧
    calculateInitialConfidence .CREDIBLE_USER true 2 = 0 := by
  refine ⟨?_, ?_, ?_, fun he c => rfl, fun he c => rfl, by decide⟩ <;>
    cases ev with
    | nil => simp [calculateInitialConfidence]
    | cons a t => simp [calculateInitialConfidence]

/-! ## Claim C9 -/

/-- C9: `removeCredibility` clamps at zero instead of underflowing: for a
registered identity it always succeeds, setting the score to 0 when
`points ≥ score` and to `score - points` otherwise; and `CredibilityToken.burn`
burns `min(amount, balance)`, never more than the current balance. -/
theorem c9_remove_credibility_clamps (st : IdentityState) (tok : TokenState)
    (wallet points now : Nat) (hreg : (st.students wallet).studentID ≠ 0) :
    (∃ st' tok', removeCredibility st tok wallet points now = .ok (st', tok') ∧
       (st'.students wallet).credibilityScore =
         (if points ≥ (st.students wallet).credibilityScore then 0
          else (st.students wallet).credibilityScore - points)) ∧
    (∀ t f a, (tokenBurn t f a).balances f = t.balances f - min a (t.balances f) ∧
       min a (t.balances f) ≤ t.balances f) := by
  constructor
  · unfold removeCredibility
    rw [if_neg hreg]
    refine ⟨_, _, rfl, ?_⟩
    simp only [mapUpdate_hit, updateStatusFn_score]
  · intro t f a
    constructor
    · simp only [tokenBurn]
      split_ifs <;>
        simp only [mapUpdate_hit, Nat.min_def] <;>
        split_ifs <;> omega
    · exact Nat.min_le_right a (t.balances f)

/-- C9 witness: wallet 4 with score 5 and balance 5 is penalized 10 points:
the score clamps to 0, the burn removes only the 5 available tokens. -/
theorem c9_remove_credibility_witness :
    (∃ st' tok', removeCredibility c9id c9tok 4 10 0 = .ok (st', tok') ∧
       (st'.students 4).credibilityScore =
         (if 10 ≥ (c9id.students 4).credibilityScore then 0
          else (c9id.students 4).credibilityScore - 10)) ∧
    (∀ t f a, (tokenBurn t f a).balances f = t.balances f - min a (t.balances f) ∧
       min a (t.balances f) ≤ t.balances f) :=
  c9_remove_credibility_clamps c9id c9tok 4 10 0 (by decide)

/-! ## Claim C10 -/

/-- C10: every successful `recordVote` requires entry status ACTIVE, and the
stored confidence is always the clamped raw recomputation
`clamp(initial + weightedConfirm - weightedDispute)` over the updated sums:
the post-lock 95%/5% blending branch of `_updateConfidence` is unreachable,
and no vote is recorded on a LOCKED rumor with dampened influence. -/
theorem c10_no_postlock_dampening (rr : RumorRegistryState) (rumorID : Nat)
    (isConfirm : Bool) (weight : Int) (now : Nat) (rr' : RumorRegistryState)
    (h : recordVote rr rumorID isConfirm weight now = .ok rr') :
    (rr.rumors rumorID).status = .ACTIVE ∧
    (rr'.rumors rumorID).currentConfidence =
      clampConfidence ((rr.rumors rumorID).initialConfidence +
        (((rr.rumors rumorID).weightedConfirmScore + (if isConfirm then weight else 0)) -
         ((rr.rumors rumorID).weightedDisputeScore + (if isConfirm then 0 else weight)))) :=
  ⟨(recordVote_ok_inv rr rumorID isConfirm weight now rr' h).2.1,
   (recordVote_ok_inv rr rumorID isConfirm weight now rr' h).2.2⟩

/-- C10 witness: a concrete successful confirm vote (weight 100) on the
over-deadline ACTIVE rumor of `c10rr`: the rumor locks in the same call and
the stored confidence is still the undampened clamped raw score. -/
theorem c10_no_postlock_dampening_witness :
    (c10rr.rumors 1).status = .ACTIVE ∧
    (c10rec.rumors 1).currentConfidence =
      clampConfidence ((c10rr.rumors 1).initialConfidence +
        (((c10rr.rumors 1).weightedConfirmScore + (if true then (100 : Int) else 0)) -
         ((c10rr.rumors 1).weightedDisputeScore + (if true then (0 : Int) else 100)))) :=
  c10_no_postlock_dampening c10rr 1 true 100 700000 c10rec rfl

/-! ## Claim C2 -/

/-- C2 (code bug): deleting a rumor does NOT deactivate its correlations.
In `c2World` rumors 2 and 3 (CREDIBLE authors) each support rumor 1.  After
the author of rumor 2 deletes it, the correlation (1,2) is still active and
`applyCorrelationBoost` on rumor 1 still tallies credibleSupport = 2 —
counting the deleted rumor — and applies the +30 boost.  Had the deletion
deactivated the correlations of rumor 2 (as the repository's own Readme
documents), the tally would be credibleSupport = 1 and no boost would be
applied. -/
theorem c2_deleted_rumor_ghost_influence :
    deleteRumorW c2World 11 2 500 = .ok c2After ∧
    (c2After.rrState.rumors 2).status = .DELETED ∧
    (c2After.cState.correlations (1, 2)).active = true ∧
    boostCounts c2After.idState c2After.rrState c2After.cState 1 = (2, 0, 0, 0) ∧
    applyCorrelationBoostCM c2After 1 500 = .ok c2Boosted ∧
    (c2Boosted.rrState.rumors 1).currentConfidence =
      (c2World.rrState.rumors 1).currentConfidence + 30 ∧
    boostCounts c2Fixed.idState c2Fixed.rrState c2Fixed.cState 1 = (1, 0, 0, 0) ∧
    applyCorrelationBoostCM c2Fixed 1 500 = .ok c2Fixed :=
  ⟨rfl, rfl, rfl, rfl, rfl, rfl, rfl, rfl⟩

/-! ## Claim C8 -/

/-- Neither `performUpkeep` nor `triggerLocking` touches the keeper state:
the lock-batch loop only writes the rumor registry and the correlation
store. -/
theorem lockBatch_keeper : ∀ (ids : List Nat) (w : World) (now : Nat) (w' : World),
    lockBatch w ids now = .ok w' → w'.keeper = w.keeper := by
  intro ids
  induction ids with
  | nil =>
    intro w now w' h
    simp only [lockBatch, Except.ok.injEq] at h
    rw [← h]
  | cons rid rest ih =>
    intro w now w' h
    simp only [lockBatch] at h
    split_ifs at h with he
    · cases hl : lockRumor w.rrState rid now with
      | error e => rw [hl] at h; cases h
      | ok rr1 =>
        rw [hl] at h
        exact ih { w with rrState := rr1, cState := deactivateCorrelations w.cState rid }
          now w' h
    · exact ih w now w' h

/-- C8 counterexample: a sweep that finds and locks an eligible rumor leaves
`lastCheckedRumorID` unchanged (still 0), so a repeated invocation computes
the same scan start position 1 — the checkpoint is never updated to reflect
the window just scanned. -/
theorem c8_checkpoint_not_updated_counterexample :
    triggerLocking c8World 700000 = .ok c8Swept ∧
    (c8Swept.rrState.rumors 1).status = .LOCKED ∧
    c8World.keeper.lastCheckedRumorID = 0 ∧
    c8Swept.keeper.lastCheckedRumorID = c8World.keeper.lastCheckedRumorID ∧
    sweepStartID c8Swept = sweepStartID c8World :=
  ⟨rfl, rfl, rfl, rfl, rfl⟩

/-- C8 (amended): no sweep invocation modifies the keeper state: after any
`performUpkeep` or `triggerLocking` the stored `lastCheckedRumorID` (and
batch size) are exactly as before, and a keeper whose checkpoint is 0 always
starts its scan at rumor id 1, so repeated invocations rescan the same
window rather than advancing. -/
theorem c8_checkpoint_amended :
    (∀ w ids now w', performUpkeep w ids now = .ok w' → w'.keeper = w.keeper) ∧
    (∀ w now w', triggerLocking w now = .ok w' → w'.keeper = w.keeper) ∧
    (∀ w, w.keeper.lastCheckedRumorID = 0 → sweepStartID w = 1) := by
  refine ⟨?_, ?_, ?_⟩
  · intro w ids now w' h
    exact lockBatch_keeper ids w now w' h
  · intro w now w' h
    exact lockBatch_keeper _ w now w' h
  · intro w h
    simp only [sweepStartID, h]
    split_ifs <;> rfl

/-- C8 witness: the amended guarantees evaluated on the concrete sweep of
`c8World`. -/
theorem c8_checkpoint_amended_witness :
    c8Swept.keeper = c8World.keeper ∧
    c8Swept.keeper = c8World.keeper ∧
    sweepStartID c8World = 1 :=
  ⟨c8_checkpoint_amended.1 c8World (findRumorsToLock c8World 700000) 700000 c8Swept rfl,
   c8_checkpoint_amended.2.1 c8World 700000 c8Swept rfl,
   c8_checkpoint_amended.2.2 c8World rfl⟩

theorem pairVoteCount_congr (v1 v2 : Nat → Vote) (r wallet : Nat) :
    ∀ n, (∀ vid, vid < n → v1 vid = v2 vid) →
      pairVoteCount v1 n r wallet = pairVoteCount v2 n r wallet := by
  intro n
  induction n with
  | zero => intro _; rfl
  | succ m ih =>
    intro hagree
    simp only [pairVoteCount]
    rw [ih (fun vid hv => hagree vid (Nat.lt_succ_of_lt hv)), hagree m (Nat.lt_succ_self m)]

theorem voteOnRumor_ok_inv (w : World) (sender rumorID : Nat) (vt : VoteType)
    (now : Nat) (w1 : World) (vid : Nat)
    (h : voteOnRumor w sender rumorID vt now = .ok (w1, vid)) :
    (w.idState.students sender).studentID ≠ 0 ∧
    w.vState.hasVoted rumorID sender = false ∧
    w1.vState.nextVoteID = w.vState.nextVoteID + 1 ∧
    (∀ u, u ≠ w.vState.nextVoteID → w1.vState.votes u = w.vState.votes u) ∧
    (w1.vState.votes w.vState.nextVoteID).rumorID = rumorID ∧
    (w1.vState.votes w.vState.nextVoteID).voterWallet = sender ∧
    (∀ r u, w1.vState.hasVoted r u =
      (if r = rumorID ∧ u = sender then true else w.vState.hasVoted r u)) ∧
    ∃ id1, incrementVoteCount w.idState sender now = .ok id1 ∧ w1.idState = id1 := by
  unfold voteOnRumor at h
  by_cases g1 : (w.idState.students sender).studentID = 0
  · simp [g1] at h
  by_cases g2 : (w.idState.students sender).status = .BLOCKED
  · exfalso; simp [g1, g2] at h
  by_cases g3 : (w.rrState.rumors rumorID).rumorID = 0
  · exfalso; simp [g1, g2, g3] at h
  by_cases g4 : (w.rrState.rumors rumorID).status = .ACTIVE
  swap
  · exfalso; simp [g1, g2, g3, g4] at h
  by_cases g5 : w.vState.hasVoted rumorID sender = true
  · exfalso; simp [g1, g2, g3, g4, g5] at h
  by_cases g6 : (w.rrState.rumors rumorID).authorWallet = sender
  · exfalso; simp [g1, g2, g3, g4, g5, g6] at h
  by_cases g7 : checkVoteRateLimit w.idState sender now = true
  swap
  · exfalso; simp [g1, g2, g3, g4, g5, g6, g7] at h
  by_cases g8 : getVotingWeight w.idState sender now = 0
  · exfalso; simp [g1, g2, g3, g4, g5, g6, g7, g8] at h
  simp only [if_neg g1, if_neg g2, if_neg g3, g4,
    if_neg (by simp : ¬ (RumorStatus.ACTIVE ≠ RumorStatus.ACTIVE)),
    Bool.not_eq_true] at h
  rw [if_neg g5, if_neg g6, if_neg (by simp [g7]), if_neg g8] at h
  cases hrec : recordVote w.rrState rumorID (decide (vt = VoteType.CONFIRM))
      (solDiv ((getVotingWeight w.idState sender now : Int)) 100) now with
  | error e => rw [hrec] at h; cases h
  | ok rr1 =>
    rw [hrec] at h
    cases hinc : incrementVoteCount w.idState sender now with
    | error e => rw [hinc] at h; cases h
    | ok id1 =>
      rw [hinc] at h
      simp only [Except.ok.injEq, Prod.mk.injEq] at h
      obtain ⟨hw, hv⟩ := h
      subst hw
      have g5f : w.vState.hasVoted rumorID sender = false := by simpa using g5
      refine ⟨g1, g5f, rfl, ?_, ?_, ?_, ?_, id1, rfl, rfl⟩
      · intro u hu
        simp [mapUpdate, hu]
      · simp [mapUpdate]
      · simp [mapUpdate]
      · intro r u
        simp [mapUpdate2]

/-- A successful vote preserves the at-most-one-vote invariant: the fresh
record is the only one for its (rumor, voter) pair, every other pair's
count is untouched. -/
theorem voteOnRumor_VInv (w : World) (sender rumorID : Nat) (vt : VoteType)
    (now : Nat) (w1 : World) (vid : Nat)
    (h : voteOnRumor w sender rumorID vt now = .ok (w1, vid))
    (hinv : VInv w.vState) : VInv w1.vState := by
  obtain ⟨-, hv0, hn, hagree, hrid, hwal, hhv, -⟩ :=
    voteOnRumor_ok_inv w sender rumorID vt now w1 vid h
  obtain ⟨h1, h2, h3⟩ := hinv
  have hcount : ∀ r wallet,
      votesForPair w1.vState r wallet =
        votesForPair w.vState r wallet +
          (if rumorID = r ∧ sender = wallet then 1 else 0) := by
    intro r wallet
    unfold votesForPair
    rw [hn]
    simp only [pairVoteCount]
    have hc : pairVoteCount w1.vState.votes w.vState.nextVoteID r wallet =
        pairVoteCount w.vState.votes w.vState.nextVoteID r wallet :=
      pairVoteCount_congr _ _ _ _ _ (fun u hu => hagree u (Nat.ne_of_lt hu))
    rw [hc, hrid, hwal]
    congr 1
    by_cases hp : rumorID = r ∧ sender = wallet
    · rw [if_pos ⟨h1, hp.1, hp.2⟩, if_pos hp]
    · rw [if_neg (fun hx => hp ⟨hx.2.1, hx.2.2⟩), if_neg hp]
  refine ⟨?_, ?_, ?_⟩
  · rw [hn]
    omega
  · intro r wallet hfalse
    rw [hhv r wallet] at hfalse
    by_cases hp : r = rumorID ∧ wallet = sender
    · rw [if_pos hp] at hfalse
      cases hfalse
    · rw [if_neg hp] at hfalse
      rw [hcount r wallet, h2 r wallet hfalse,
        if_neg (fun hx => hp ⟨hx.1.symm, hx.2.symm⟩)]
  · intro r wallet
    rw [hcount r wallet]
    by_cases hp : rumorID = r ∧ sender = wallet
    · rw [if_pos hp]
      have : votesForPair w.vState r wallet = 0 := by
        apply h2
        rw [← hp.1, ← hp.2]
        exact hv0
      omega
    · rw [if_neg hp]
      have := h3 r wallet
      omega

theorem credup_IdInv_core (st : IdentityState) (wallet : Nat) (s1 : Student) (now : Nat)
    (hinv : IdInv st) :
    IdInv { st with students := mapUpdate st.students wallet (updateStatusFn s1 now) } := by
  intro u hid hscore
  by_cases hw : u = wallet
  · subst hw
    simp only [mapUpdate_hit] at hid hscore ⊢
    rw [updateStatusFn_score] at hscore
    exact updateStatusFn_blocked s1 now hscore
  · simp only [mapUpdate_miss _ _ _ _ hw] at hid hscore ⊢
    exact hinv u hid hscore

theorem updateCredibility_IdInv (st : IdentityState) (wallet ns now : Nat)
    (st' : IdentityState) (h : updateCredibility st wallet ns now = .ok st')
    (hinv : IdInv st) : IdInv st' := by
  simp only [updateCredibility] at h
  by_cases h1 : (st.students wallet).studentID = 0
  · rw [if_pos h1] at h
    exact Except.noConfusion h
  · rw [if_neg h1] at h
    simp only [Except.ok.injEq] at h
    subst h
    exact credup_IdInv_core st wallet _ now hinv

theorem addCredibility_IdInv (st : IdentityState) (tok : TokenState)
    (wallet points now : Nat) (st' : IdentityState) (tok' : TokenState)
    (h : addCredibility st tok wallet points now = .ok (st', tok'))
    (hinv : IdInv st) : IdInv st' := by
  simp only [addCredibility] at h
  by_cases h1 : (st.students wallet).studentID = 0
  · rw [if_pos h1] at h
    exact Except.noConfusion h
  · rw [if_neg h1] at h
    simp only [Except.ok.injEq, Prod.mk.injEq] at h
    obtain ⟨hst, -⟩ := h
    subst hst
    exact credup_IdInv_core st wallet _ now hinv

theorem removeCredibility_IdInv (st : IdentityState) (tok : TokenState)
    (wallet points now : Nat) (st' : IdentityState) (tok' : TokenState)
    (h : removeCredibility st tok wallet points now = .ok (st', tok'))
    (hinv : IdInv st) : IdInv st' := by
  simp only [removeCredibility] at h
  by_cases h1 : (st.students wallet).studentID = 0
  · rw [if_pos h1] at h
    exact Except.noConfusion h
  · rw [if_neg h1] at h
    simp only [Except.ok.injEq, Prod.mk.injEq] at h
    obtain ⟨hst, -⟩ := h
    subst hst
    exact credup_IdInv_core st wallet _ now hinv

theorem registerStudent_IdInv (st : IdentityState) (tok : TokenState)
    (sender emailHMAC : Nat) (sigValid : Bool) (now : Nat) (st' : IdentityState)
    (tok' : TokenState)
    (h : registerStudent st tok sender emailHMAC sigValid now = .ok (st', tok'))
    (hinv : IdInv st) : IdInv st' := by
  simp only [registerStudent] at h
  by_cases h1 : (st.students sender).studentID ≠ 0
  · rw [if_pos h1] at h
    exact Except.noConfusion h
  rw [if_neg h1] at h
  by_cases h2 : st.emailHMACUsed emailHMAC = true
  · rw [if_pos h2] at h
    exact Except.noConfusion h
  rw [if_neg h2] at h
  by_cases h3 : sigValid = true
  case neg =>
    rw [if_pos (by simpa using h3)] at h
    exact Except.noConfusion h
  case pos =>
    rw [if_neg (by simpa using h3)] at h
    simp only [Except.ok.injEq, Prod.mk.injEq] at h
    obtain ⟨hst, -⟩ := h
    subst hst
    intro u hid hscore
    by_cases hw : u = sender
    · subst hw
      simp only [mapUpdate_hit] at hscore
      exact absurd hscore (by decide)
    · simp only [mapUpdate_miss _ _ _ _ hw] at hid hscore ⊢
      exact hinv u hid hscore

theorem incrementPostCount_IdInv (st : IdentityState) (wallet now : Nat)
    (st' : IdentityState) (h : incrementPostCount st wallet now = .ok st')
    (hinv : IdInv st) : IdInv st' := by
  simp only [incrementPostCount] at h
  by_cases h1 : (st.students wallet).studentID = 0
  · rw [if_pos h1] at h
    exact Except.noConfusion h
  · rw [if_neg h1] at h
    simp only [Except.ok.injEq] at h
    subst h
    intro u hid hscore
    by_cases hw : u = wallet
    · subst hw
      simp only [mapUpdate_hit] at hid hscore ⊢
      split_ifs at hid hscore ⊢ <;> exact hinv u (by simpa using hid) (by simpa using hscore)
    · simp only [mapUpdate_miss _ _ _ _ hw] at hid hscore ⊢
      exact hinv u hid hscore

theorem incrementVoteCount_IdInv (st : IdentityState) (wallet now : Nat)
    (st' : IdentityState) (h : incrementVoteCount st wallet now = .ok st')
    (hinv : IdInv st) : IdInv st' := by
  simp only [incrementVoteCount] at h
  by_cases h1 : (st.students wallet).studentID = 0
  · rw [if_pos h1] at h
    exact Except.noConfusion h
  · rw [if_neg h1] at h
    simp only [Except.ok.injEq] at h
    subst h
    intro u hid hscore
    by_cases hw : u = wallet
    · subst hw
      simp only [mapUpdate_hit] at hid hscore ⊢
      split_ifs at hid hscore ⊢ <;> exact hinv u (by simpa using hid) (by simpa using hscore)
    · simp only [mapUpdate_miss _ _ _ _ hw] at hid hscore ⊢
      exact hinv u hid hscore

theorem processVote_IdInv (st : IdentityState) (tok : TokenState) (isTrue : Bool)
    (vote : Vote) (now : Nat) (st' : IdentityState) (tok' : TokenState)
    (h : processVote st tok isTrue vote now = .ok (st', tok'))
    (hinv : IdInv st) : IdInv st' := by
  simp only [processVote] at h
  split_ifs at h <;>
    first
      | exact addCredibility_IdInv st tok _ _ now st' tok' h hinv
      | exact removeCredibility_IdInv st tok _ _ now st' tok' h hinv

theorem processVotes_IdInv (votes : Nat → Vote) (isTrue : Bool) (now : Nat) :
    ∀ (ids : List Nat) (st : IdentityState) (tok : TokenState)
      (st' : IdentityState) (tok' : TokenState),
    processVotes ids votes isTrue st tok now = .ok (st', tok') →
    IdInv st → IdInv st' := by
  intro ids
  induction ids with
  | nil =>
    intro st tok st' tok' h hinv
    simp only [processVotes, Except.ok.injEq, Prod.mk.injEq] at h
    obtain ⟨hst, -⟩ := h
    subst hst
    exact hinv
  | cons vid rest ih =>
    intro st tok st' tok' h hinv
    simp only [processVotes] at h
    cases hp : processVote st tok isTrue (votes vid) now with
    | error e => rw [hp] at h; cases h
    | ok p =>
      rw [hp] at h
      exact ih p.1 p.2 st' tok' h (processVote_IdInv st tok isTrue (votes vid) now p.1 p.2
        (by rw [hp]) hinv)

/-! ## Frame lemmas (which contract states an operation can touch) -/

theorem addCorrelations_frame : ∀ (entries : List (Nat × Nat × RelationshipType × Nat))
    (w : World) (now : Nat) (w1 : World), addCorrelations w entries now = .ok w1 →
    w1.idState = w.idState ∧ w1.vState = w.vState := by
  intro entries
  induction entries with
  | nil =>
    intro w now w1 h
    simp only [addCorrelations, Except.ok.injEq] at h
    subst h
    exact ⟨rfl, rfl⟩
  | cons e rest ih =>
    intro w now w1 h
    obtain ⟨a, b, t, conf⟩ := e
    simp only [addCorrelations] at h
    cases hc : addCorrelation w a b t conf now with
    | error er => rw [hc] at h; cases h
    | ok c1 =>
      rw [hc] at h
      exact ih { w with cState := c1 } now w1 h

theorem applyCorrelationBoostCM_frame (w : World) (rumorID now : Nat) (w1 : World)
    (h : applyCorrelationBoostCM w rumorID now = .ok w1) :
    w1.idState = w.idState ∧ w1.vState = w.vState := by
  simp only [applyCorrelationBoostCM] at h
  split_ifs at h
  · cases hb : applyBoostRR w.rrState rumorID
        (boostFromCounts (boostCounts w.idState w.rrState w.cState rumorID)) with
    | error e => rw [hb] at h; cases h
    | ok rr1 =>
      rw [hb] at h
      simp only [Except.ok.injEq] at h
      subst h
      exact ⟨rfl, rfl⟩
  · simp only [Except.ok.injEq] at h
    subst h
    exact ⟨rfl, rfl⟩

theorem lockBatch_frame : ∀ (ids : List Nat) (w : World) (now : Nat) (w1 : World),
    lockBatch w ids now = .ok w1 →
    w1.idState = w.idState ∧ w1.vState = w.vState := by
  intro ids
  induction ids with
  | nil =>
    intro w now w1 h
    simp only [lockBatch, Except.ok.injEq] at h
    subst h
    exact ⟨rfl, rfl⟩
  | cons rid rest ih =>
    intro w now w1 h
    simp only [lockBatch] at h
    split_ifs at h with he
    · cases hl : lockRumor w.rrState rid now with
      | error e => rw [hl] at h; cases h
      | ok rr1 =>
        rw [hl] at h
        exact ih { w with rrState := rr1, cState := deactivateCorrelations w.cState rid }
          now w1 h
    · exact ih w now w1 h

theorem verifyRumor_ok_inv (w : World) (rumorID : Nat) (isTrue : Bool) (now : Nat)
    (w1 : World) (h : verifyRumor w rumorID isTrue now = .ok w1) :
    w.verifState.verifiedRumors rumorID = false ∧
    w1.vState = w.vState ∧
    w1.verifState.verifiedRumors rumorID = true ∧
    ∃ rr1 id1 tok1 id2 tok2,
      setVerificationResult w.rrState rumorID isTrue now = .ok rr1 ∧
      (if isTrue then
         addCredibility w.idState w.tokState (w.rrState.rumors rumorID).authorWallet
           AUTHOR_REWARD_TRUE now
       else
         removeCredibility w.idState w.tokState (w.rrState.rumors rumorID).authorWallet
           AUTHOR_PENALTY_FALSE now) = .ok (id1, tok1) ∧
      processVotes (w.vState.votesByRumor rumorID) w.vState.votes isTrue id1 tok1 now
        = .ok (id2, tok2) ∧
      w1.idState = id2 ∧ w1.tokState = tok2 ∧ w1.rrState = rr1 := by
  unfold verifyRumor at h
  by_cases g1 : w.verifState.verifiedRumors rumorID = true
  · rw [if_pos g1] at h
    exact Except.noConfusion h
  rw [if_neg g1] at h
  by_cases g2 : (w.rrState.rumors rumorID).rumorID = 0
  · rw [if_pos g2] at h
    exact Except.noConfusion h
  rw [if_neg g2] at h
  cases hs : setVerificationResult w.rrState rumorID isTrue now with
  | error e => rw [hs] at h; cases h
  | ok rr1 =>
    rw [hs] at h
    cases ha : (if isTrue then
        addCredibility w.idState w.tokState (w.rrState.rumors rumorID).authorWallet
          AUTHOR_REWARD_TRUE now
      else
        removeCredibility w.idState w.tokState (w.rrState.rumors rumorID).authorWallet
          AUTHOR_PENALTY_FALSE now) with
    | error e => rw [ha] at h; cases h
    | ok p =>
      obtain ⟨id1, tok1⟩ := p
      rw [ha] at h
      dsimp only at h
      cases hp : processVotes (w.vState.votesByRumor rumorID) w.vState.votes isTrue
          id1 tok1 now with
      | error e =>
        rw [hp] at h
        cases h
      | ok q =>
        obtain ⟨id2, tok2⟩ := q
        rw [hp] at h
        simp only [Except.ok.injEq] at h
        subst h
        refine ⟨by simpa using g1, rfl, by simp [mapUpdate], rr1, id1, tok1, id2, tok2,
          rfl, rfl, hp, rfl, rfl, rfl⟩

/-- Every successful operation of the composed system preserves the
credibility-zero-implies-BLOCKED invariant. -/
theorem WorldStep_IdInv (w w1 : World) (hs : WorldStep w w1) (hinv : IdInv w.idState) :
    IdInv w1.idState := by
  cases hs with
  | register sender e sv now h =>
    obtain ⟨⟨id1, tok1⟩, hp, rfl⟩ := map_eq_ok _ _ _ h
    exact registerStudent_IdInv _ _ _ _ _ _ _ _ hp hinv
  | updateCred wallet ns now h =>
    obtain ⟨id1, hp, rfl⟩ := map_eq_ok _ _ _ h
    exact updateCredibility_IdInv _ _ _ _ _ hp hinv
  | addCred wallet pts now h =>
    obtain ⟨⟨id1, tok1⟩, hp, rfl⟩ := map_eq_ok _ _ _ h
    exact addCredibility_IdInv _ _ _ _ _ _ _ hp hinv
  | removeCred wallet pts now h =>
    obtain ⟨⟨id1, tok1⟩, hp, rfl⟩ := map_eq_ok _ _ _ h
    exact removeCredibility_IdInv _ _ _ _ _ _ _ hp hinv
  | incPost wallet now h =>
    obtain ⟨id1, hp, rfl⟩ := map_eq_ok _ _ _ h
    exact incrementPostCount_IdInv _ _ _ _ hp hinv
  | incVote wallet now h =>
    obtain ⟨id1, hp, rfl⟩ := map_eq_ok _ _ _ h
    exact incrementVoteCount_IdInv _ _ _ _ hp hinv
  | create sender ch ev kw now rid h =>
    obtain ⟨id1, hp, hid⟩ := (createRumor_ok_inv _ _ _ _ _ _ _ _ h).2.2
    rw [hid]
    exact incrementPostCount_IdInv _ _ _ _ hp hinv
  | vote sender rumorID vt now vid h =>
    obtain ⟨id1, hp, hid⟩ :=
      (voteOnRumor_ok_inv _ _ _ _ _ _ _ h).2.2.2.2.2.2.2
    rw [hid]
    exact incrementVoteCount_IdInv _ _ _ _ hp hinv
  | recordVoteDirect rumorID c wgt now h =>
    obtain ⟨rr1, hp, rfl⟩ := map_eq_ok _ _ _ h
    exact hinv
  | lock rumorID now h =>
    obtain ⟨rr1, hp, rfl⟩ := map_eq_ok _ _ _ h
    exact hinv
  | delete sender rumorID now h =>
    obtain ⟨rr1, hp, rfl⟩ := map_eq_ok _ _ _ h
    exact hinv
  | setResult rumorID b now h =>
    obtain ⟨rr1, hp, rfl⟩ := map_eq_ok _ _ _ h
    exact hinv
  | boostRR rumorID b h =>
    obtain ⟨rr1, hp, rfl⟩ := map_eq_ok _ _ _ h
    exact hinv
  | trustBonus rumorID b h =>
    obtain ⟨rr1, hp, rfl⟩ := map_eq_ok _ _ _ h
    exact hinv
  | addCorrs entries now h =>
    rw [(addCorrelations_frame entries _ now _ h).1]
    exact hinv
  | boostCM rumorID now h =>
    rw [(applyCorrelationBoostCM_frame _ rumorID now _ h).1]
    exact hinv
  | deactivate rumorID h =>
    subst h
    exact hinv
  | verify rumorID b now h =>
    obtain ⟨-, -, -, rr1, id1, tok1, id2, tok2, -, hauth, hproc, hid2, -, -⟩ :=
      verifyRumor_ok_inv _ rumorID b now _ h
    have hinv1 : IdInv id1 := by
      cases b with
      | true => exact addCredibility_IdInv _ _ _ _ _ _ _ (by simpa using hauth) hinv
      | false => exact removeCredibility_IdInv _ _ _ _ _ _ _ (by simpa using hauth) hinv
    rw [hid2]
    exact processVotes_IdInv _ _ _ _ _ _ _ _ hproc hinv1
  | upkeep ids now h =>
    rw [(lockBatch_frame ids _ now _ h).1]
    exact hinv
  | trigger now h =>
    rw [(lockBatch_frame _ _ now _ h).1]
    exact hinv
  | mintDirect a b h =>
    subst h
    exact hinv
  | burnDirect a b h =>
    subst h
    exact hinv

/-- Every successful operation preserves the at-most-one-vote invariant. -/
theorem WorldStep_VInv (w w1 : World) (hs : WorldStep w w1) (hinv : VInv w.vState) :
    VInv w1.vState := by
  cases hs with
  | vote sender rumorID vt now vid h =>
    exact voteOnRumor_VInv _ _ _ _ _ _ _ h hinv
  | register sender e sv now h =>
    obtain ⟨⟨id1, tok1⟩, hp, rfl⟩ := map_eq_ok _ _ _ h
    exact hinv
  | updateCred wallet ns now h =>
    obtain ⟨id1, hp, rfl⟩ := map_eq_ok _ _ _ h
    exact hinv
  | addCred wallet pts now h =>
    obtain ⟨⟨id1, tok1⟩, hp, rfl⟩ := map_eq_ok _ _ _ h
    exact hinv
  | removeCred wallet pts now h =>
    obtain ⟨⟨id1, tok1⟩, hp, rfl⟩ := map_eq_ok _ _ _ h
    exact hinv
  | incPost wallet now h =>
    obtain ⟨id1, hp, rfl⟩ := map_eq_ok _ _ _ h
    exact hinv
  | incVote wallet now h =>
    obtain ⟨id1, hp, rfl⟩ := map_eq_ok _ _ _ h
    exact hinv
  | create sender ch ev kw now rid h =>
    rw [(createRumor_ok_inv _ _ _ _ _ _ _ _ h).2.1]
    exact hinv
  | recordVoteDirect rumorID c wgt now h =>
    obtain ⟨rr1, hp, rfl⟩ := map_eq_ok _ _ _ h
    exact hinv
  | lock rumorID now h =>
    obtain ⟨rr1, hp, rfl⟩ := map_eq_ok _ _ _ h
    exact hinv
  | delete sender rumorID now h =>
    obtain ⟨rr1, hp, rfl⟩ := map_eq_ok _ _ _ h
    exact hinv
  | setResult rumorID b now h =>
    obtain ⟨rr1, hp, rfl⟩ := map_eq_ok _ _ _ h
    exact hinv
  | boostRR rumorID b h =>
    obtain ⟨rr1, hp, rfl⟩ := map_eq_ok _ _ _ h
    exact hinv
  | trustBonus rumorID b h =>
    obtain ⟨rr1, hp, rfl⟩ := map_eq_ok _ _ _ h
    exact hinv
  | addCorrs entries now h =>
    rw [(addCorrelations_frame entries _ now _ h).2]
    exact hinv
  | boostCM rumorID now h =>
    rw [(applyCorrelationBoostCM_frame _ rumorID now _ h).2]
    exact hinv
  | deactivate rumorID h =>
    subst h
    exact hinv
  | verify rumorID b now h =>
    rw [(verifyRumor_ok_inv _ rumorID b now _ h).2.1]
    exact hinv
  | upkeep ids now h =>
    rw [(lockBatch_frame ids _ now _ h).2]
    exact hinv
  | trigger now h =>
    rw [(lockBatch_frame _ _ now _ h).2]
    exact hinv
  | mintDirect a b h =>
    subst h
    exact hinv
  | burnDirect a b h =>
    subst h
    exact hinv

theorem reachable_IdInv (w w1 : World) (hr : WorldReachable w w1)
    (hinv : IdInv w.idState) : IdInv w1.idState := by
  induction hr with
  | refl => exact hinv
  | tail hab hbc ih => exact WorldStep_IdInv _ _ hbc ih

theorem reachable_VInv (w w1 : World) (hr : WorldReachable w w1)
    (hinv : VInv w.vState) : VInv w1.vState := by
  induction hr with
  | refl => exact hinv
  | tail hab hbc ih => exact WorldStep_VInv _ _ hbc ih

/-! ## Claim C5 -/

/-- C5: at most one Vote per (rumor, voter) pair.  A voter who already voted
always fails (and in particular, when the usual preconditions hold, fails
with the AlreadyVoted state conflict, leaving all state unchanged — errors
carry no state); the rumor's own author always fails with SelfVote; and the
at-most-one-vote invariant `VInv` is preserved by every reachable sequence of
system operations. -/
theorem c5_at_most_one_vote :
    (∀ w sender rumorID vt now, w.vState.hasVoted rumorID sender = true →
       isOkE (voteOnRumor w sender rumorID vt now) = false) ∧
    (∀ w sender rumorID vt now,
       (w.idState.students sender).studentID ≠ 0 →
       (w.idState.students sender).status ≠ .BLOCKED →
       (w.rrState.rumors rumorID).rumorID ≠ 0 →
       (w.rrState.rumors rumorID).status = .ACTIVE →
       w.vState.hasVoted rumorID sender = true →
       voteOnRumor w sender rumorID vt now = .error .alreadyVoted) ∧
    (∀ w sender rumorID vt now,
       (w.idState.students sender).studentID ≠ 0 →
       (w.idState.students sender).status ≠ .BLOCKED →
       (w.rrState.rumors rumorID).rumorID ≠ 0 →
       (w.rrState.rumors rumorID).status = .ACTIVE →
       w.vState.hasVoted rumorID sender = false →
       (w.rrState.rumors rumorID).authorWallet = sender →
       voteOnRumor w sender rumorID vt now = .error .selfVote) ∧
    (∀ w w1, VInv w.vState → WorldReachable w w1 → VInv w1.vState) := by
  refine ⟨?_, ?_, ?_, ?_⟩
  · intro w sender rumorID vt now hv
    by_cases g1 : (w.idState.students sender).studentID = 0
    · simp [voteOnRumor, g1, isOkE]
    by_cases g2 : (w.idState.students sender).status = .BLOCKED
    · simp [voteOnRumor, g1, g2, isOkE]
    by_cases g3 : (w.rrState.rumors rumorID).rumorID = 0
    · simp [voteOnRumor, g1, g2, g3, isOkE]
    by_cases g4 : (w.rrState.rumors rumorID).status = .ACTIVE
    · simp [voteOnRumor, g1, g2, g3, g4, hv, isOkE]
    · simp [voteOnRumor, g1, g2, g3, g4, isOkE]
  · intro w sender rumorID vt now g1 g2 g3 g4 hv
    simp [voteOnRumor, g1, g2, g3, g4, hv]
  · intro w sender rumorID vt now g1 g2 g3 g4 hv g6
    simp [voteOnRumor, g1, g2, g3, g4, hv, g6]
  · intro w w1 hinv hr
    exact reachable_VInv w w1 hr hinv

/-- C5 witness: on `c5World` (wallet 3 has already voted on rumor 1, wallet
9 is the author), a repeat vote fails, the error is the AlreadyVoted state
conflict, the author's vote fails with SelfVote, and the invariant holds
after wallet 4's successful fresh vote. -/
theorem c5_at_most_one_vote_witness :
    isOkE (voteOnRumor c5World 3 1 .CONFIRM 5) = false ∧
    voteOnRumor c5World 3 1 .CONFIRM 5 = .error .alreadyVoted ∧
    voteOnRumor c5World 9 1 .CONFIRM 5 = .error .selfVote ∧
    VInv c5Voted.vState :=
  ⟨c5_at_most_one_vote.1 c5World 3 1 .CONFIRM 5 rfl,
   c5_at_most_one_vote.2.1 c5World 3 1 .CONFIRM 5 (by decide) (by decide) (by decide)
     rfl rfl,
   c5_at_most_one_vote.2.2.1 c5World 9 1 .CONFIRM 5 (by decide) (by decide) (by decide)
     rfl rfl rfl,
   c5_at_most_one_vote.2.2.2 c5World c5Voted
     ⟨Nat.le_refl 1,
      fun r wallet _ => by simp [votesForPair, pairVoteCount],
      fun r wallet => by simp [votesForPair, pairVoteCount]⟩
     (Relation.ReflTransGen.single (WorldStep.vote 4 1 .CONFIRM 5 1 rfl))⟩

/-! ## Claim C6 -/

/-- C6: for every registered identity, after any reachable sequence of
operations from a state satisfying the invariant, a credibility score of 0
implies status BLOCKED and a voting weight of 0. -/
theorem c6_zero_credibility_blocked (w w1 : World) (hinv : IdInv w.idState)
    (hr : WorldReachable w w1) (wallet now : Nat)
    (hreg : (w1.idState.students wallet).studentID ≠ 0)
    (hz : (w1.idState.students wallet).credibilityScore = 0) :
    (w1.idState.students wallet).status = .BLOCKED ∧
    getVotingWeight w1.idState wallet now = 0 := by
  have hb := reachable_IdInv w w1 hr hinv wallet hreg hz
  refine ⟨hb, ?_⟩
  simp only [getVotingWeight]
  rw [if_neg hreg, if_pos hb]

/-- C6 witness: from the freshly deployed system, register wallet 5 and then
set its credibility to 0 via `updateCredibility`: the student is BLOCKED and
has voting weight 0. -/
theorem c6_zero_credibility_blocked_witness :
    (c6w2.idState.students 5).status = .BLOCKED ∧
    getVotingWeight c6w2.idState 5 0 = 0 :=
  c6_zero_credibility_blocked World.init c6w2
    (fun wallet hid _ => absurd rfl hid)
    (Relation.ReflTransGen.tail
      (Relation.ReflTransGen.single (WorldStep.register 5 99 true 0 rfl))
      (WorldStep.updateCred 5 0 0 rfl))
    5 0 (by decide) rfl

theorem addCredibility_spec (st : IdentityState) (tok : TokenState)
    (wallet points now : Nat) (h : (st.students wallet).studentID ≠ 0) :
    ∃ st' tok', addCredibility st tok wallet points now = .ok (st', tok') ∧
      (∀ u, u ≠ wallet → st'.students u = st.students u) ∧
      (∀ u, (st'.students u).studentID = (st.students u).studentID) ∧
      (st'.students wallet).credibilityScore
        = (st.students wallet).credibilityScore + points := by
  simp only [addCredibility]
  rw [if_neg h]
  refine ⟨_, _, rfl, ?_, ?_, ?_⟩
  · intro u hu
    simp [mapUpdate, hu]
  · intro u
    by_cases hu : u = wallet
    · subst hu
      simp [mapUpdate, updateStatusFn_id]
    · simp [mapUpdate, hu]
  · simp [mapUpdate, updateStatusFn_score]

theorem removeCredibility_spec (st : IdentityState) (tok : TokenState)
    (wallet points now : Nat) (h : (st.students wallet).studentID ≠ 0) :
    ∃ st' tok', removeCredibility st tok wallet points now = .ok (st', tok') ∧
      (∀ u, u ≠ wallet → st'.students u = st.students u) ∧
      (∀ u, (st'.students u).studentID = (st.students u).studentID) ∧
      (st'.students wallet).credibilityScore
        = (st.students wallet).credibilityScore - points := by
  simp only [removeCredibility]
  rw [if_neg h]
  refine ⟨_, _, rfl, ?_, ?_, ?_⟩
  · intro u hu
    simp [mapUpdate, hu]
  · intro u
    by_cases hu : u = wallet
    · subst hu
      simp [mapUpdate, updateStatusFn_id]
    · simp [mapUpdate, hu]
  · simp only [mapUpdate_hit, updateStatusFn_score]
    split_ifs with hge <;> omega

theorem processVote_spec (st : IdentityState) (tok : TokenState) (isTrue : Bool)
    (vote : Vote) (now : Nat) (h : (st.students vote.voterWallet).studentID ≠ 0) :
    ∃ st' tok', processVote st tok isTrue vote now = .ok (st', tok') ∧
      (∀ u, u ≠ vote.voterWallet → st'.students u = st.students u) ∧
      (∀ u, (st'.students u).studentID = (st.students u).studentID) ∧
      (st'.students vote.voterWallet).credibilityScore =
        (if votedCorrectlyB isTrue vote.voteType = true then
           (st.students vote.voterWallet).credibilityScore + voteMagnitude vote.voteType
         else
           (st.students vote.voterWallet).credibilityScore - voteMagnitude vote.voteType) := by
  cases hb : isTrue <;> cases hvt : vote.voteType <;>
    simp only [processVote, hvt, votedCorrectlyB, voteMagnitude] <;>
    simp only [VOTER_REWARD_CORRECT, VOTER_REWARD_CORRECT_DISPUTE,
      VOTER_PENALTY_WRONG_CONFIRM, VOTER_PENALTY_WRONG_DISPUTE] <;>
    first
      | simpa using addCredibility_spec st tok vote.voterWallet 1 now h
      | simpa using addCredibility_spec st tok vote.voterWallet 2 now h
      | simpa using removeCredibility_spec st tok vote.voterWallet 1 now h
      | simpa using removeCredibility_spec st tok vote.voterWallet 2 now h

theorem processVotes_spec (votes : Nat → Vote) (isTrue : Bool) (now : Nat) :
    ∀ (ids : List Nat) (st : IdentityState) (tok : TokenState),
    (∀ vid ∈ ids, (st.students (votes vid).voterWallet).studentID ≠ 0) →
    (ids.map (fun vid => (votes vid).voterWallet)).Nodup →
    ∃ st' tok', processVotes ids votes isTrue st tok now = .ok (st', tok') ∧
      (∀ u, u ∉ ids.map (fun vid => (votes vid).voterWallet) →
        st'.students u = st.students u) ∧
      (∀ u, (st'.students u).studentID = (st.students u).studentID) ∧
      (∀ vid ∈ ids,
        (st'.students (votes vid).voterWallet).credibilityScore =
          (if votedCorrectlyB isTrue (votes vid).voteType = true then
             (st.students (votes vid).voterWallet).credibilityScore
               + voteMagnitude (votes vid).voteType
           else
             (st.students (votes vid).voterWallet).credibilityScore
               - voteMagnitude (votes vid).voteType)) := by
  intro ids
  induction ids with
  | nil =>
    intro st tok hreg hnodup
    exact ⟨st, tok, rfl, fun u _ => rfl, fun u => rfl,
      fun vid hv => absurd hv (List.not_mem_nil vid)⟩
  | cons vid rest ih =>
    intro st tok hreg hnodup
    have hregv : (st.students (votes vid).voterWallet).studentID ≠ 0 :=
      hreg vid (List.mem_cons_self _ _)
    obtain ⟨st1, tok1, hok1, hmiss1, hid1, hsc1⟩ :=
      processVote_spec st tok isTrue (votes vid) now hregv
    have hreg1 : ∀ v ∈ rest, (st1.students (votes v).voterWallet).studentID ≠ 0 := by
      intro v hv
      rw [hid1]
      exact hreg v (List.mem_cons_of_mem _ hv)
    have hnd : (rest.map (fun v => (votes v).voterWallet)).Nodup :=
      (List.nodup_cons.mp hnodup).2
    have hhead : (votes vid).voterWallet ∉ rest.map (fun v => (votes v).voterWallet) :=
      (List.nodup_cons.mp hnodup).1
    obtain ⟨st', tok', hok, hmiss, hid, hsc⟩ := ih st1 tok1 hreg1 hnd
    refine ⟨st', tok', ?_, ?_, ?_, ?_⟩
    · simp only [processVotes, hok1]
      exact hok
    · intro u hu
      rw [List.map_cons, List.mem_cons] at hu
      push_neg at hu
      rw [hmiss u hu.2, hmiss1 u hu.1]
    · intro u
      rw [hid u, hid1 u]
    · intro v hv
      rcases List.mem_cons.mp hv with hveq | hvrest
      · subst hveq
        rw [hmiss _ hhead, hsc1]
      · have hne : (votes v).voterWallet ≠ (votes vid).voterWallet := by
          intro heq
          exact hhead (heq ▸ List.mem_map_of_mem _ hvrest)
        rw [hsc v hvrest, hmiss1 _ hne]

/-! ## Claim C7 -/

/-- C7: `verifyRumor` on an unverified, existing rumor succeeds and adjusts
credibility by the claimed magnitudes: the author gains AUTHOR_REWARD_TRUE
(= 5) when verified true and loses AUTHOR_PENALTY_FALSE (= 10, clamped at 0)
when verified false; every voter who voted correctly gains their magnitude
(confirm 1, dispute 2) and every voter who voted incorrectly loses it — so
when a rumor is verified false each CONFIRM voter loses 1 and each DISPUTE
voter gains 2; the rumor is marked verified and a second `verifyRumor` call
fails with the AlreadyVerified state conflict. -/
theorem c7_verification_outcomes (w : World) (rumorID : Nat) (isTrue : Bool) (now : Nat)
    (hnv : w.verifState.verifiedRumors rumorID = false)
    (hex : (w.rrState.rumors rumorID).rumorID ≠ 0)
    (hauth : (w.idState.students (w.rrState.rumors rumorID).authorWallet).studentID ≠ 0)
    (hvreg : ∀ vid ∈ w.vState.votesByRumor rumorID,
      (w.idState.students (w.vState.votes vid).voterWallet).studentID ≠ 0)
    (hnodup : ((w.vState.votesByRumor rumorID).map
      (fun vid => (w.vState.votes vid).voterWallet)).Nodup)
    (hna : ∀ vid ∈ w.vState.votesByRumor rumorID,
      (w.vState.votes vid).voterWallet ≠ (w.rrState.rumors rumorID).authorWallet) :
    ∃ w1, verifyRumor w rumorID isTrue now = .ok w1 ∧
      (isTrue = true → credOf w1 (w.rrState.rumors rumorID).authorWallet
        = credOf w (w.rrState.rumors rumorID).authorWallet + AUTHOR_REWARD_TRUE) ∧
      (isTrue = false → credOf w1 (w.rrState.rumors rumorID).authorWallet
        = credOf w (w.rrState.rumors rumorID).authorWallet - AUTHOR_PENALTY_FALSE) ∧
      (∀ vid ∈ w.vState.votesByRumor rumorID,
        (votedCorrectlyB isTrue (w.vState.votes vid).voteType = true →
          credOf w1 (w.vState.votes vid).voterWallet
            = credOf w (w.vState.votes vid).voterWallet
                + voteMagnitude (w.vState.votes vid).voteType) ∧
        (votedCorrectlyB isTrue (w.vState.votes vid).voteType = false →
          credOf w1 (w.vState.votes vid).voterWallet
            = credOf w (w.vState.votes vid).voterWallet
                - voteMagnitude (w.vState.votes vid).voteType)) ∧
      w1.verifState.verifiedRumors rumorID = true ∧
      (∀ b now2, verifyRumor w1 rumorID b now2 = .error .alreadyVerified) := by
  have hstep : ∃ id1 tok1,
      (if isTrue then
         addCredibility w.idState w.tokState (w.rrState.rumors rumorID).authorWallet
           AUTHOR_REWARD_TRUE now
       else
         removeCredibility w.idState w.tokState (w.rrState.rumors rumorID).authorWallet
           AUTHOR_PENALTY_FALSE now) = .ok (id1, tok1) ∧
      (∀ u, u ≠ (w.rrState.rumors rumorID).authorWallet →
        id1.students u = w.idState.students u) ∧
      (∀ u, (id1.students u).studentID = (w.idState.students u).studentID) ∧
      (id1.students (w.rrState.rumors rumorID).authorWallet).credibilityScore =
        (if isTrue = true then
           (w.idState.students (w.rrState.rumors rumorID).authorWallet).credibilityScore
             + AUTHOR_REWARD_TRUE
         else
           (w.idState.students (w.rrState.rumors rumorID).authorWallet).credibilityScore
             - AUTHOR_PENALTY_FALSE) := by
    cases isTrue
    · simpa using removeCredibility_spec w.idState w.tokState _ AUTHOR_PENALTY_FALSE now hauth
    · simpa using addCredibility_spec w.idState w.tokState _ AUTHOR_REWARD_TRUE now hauth
  obtain ⟨id1, tok1, hok1, hmiss1, hid1, hsc1⟩ := hstep
  obtain ⟨id2, tok2, hok2, hmiss2, hid2, hsc2⟩ :=
    processVotes_spec w.vState.votes isTrue now (w.vState.votesByRumor rumorID) id1 tok1
      (fun vid hv => by rw [hid1]; exact hvreg vid hv) hnodup
  have hAuthNotVoter : (w.rrState.rumors rumorID).authorWallet ∉
      (w.vState.votesByRumor rumorID).map (fun vid => (w.vState.votes vid).voterWallet) := by
    intro hm
    obtain ⟨vid, hv', heq⟩ := List.mem_map.mp hm
    exact hna vid hv' heq
  cases hv : verifyRumor w rumorID isTrue now with
  | error e =>
    exfalso
    simp only [verifyRumor] at hv
    rw [if_neg (by simp [hnv]), if_neg hex] at hv
    simp only [setVerificationResult] at hv
    rw [if_neg hex] at hv
    dsimp only at hv
    rw [hok1] at hv
    dsimp only at hv
    rw [hok2] at hv
    dsimp only at hv
    exact Except.noConfusion hv
  | ok w1 =>
    simp only [verifyRumor] at hv
    rw [if_neg (by simp [hnv]), if_neg hex] at hv
    simp only [setVerificationResult] at hv
    rw [if_neg hex] at hv
    dsimp only at hv
    rw [hok1] at hv
    dsimp only at hv
    rw [hok2] at hv
    dsimp only at hv
    simp only [Except.ok.injEq] at hv
    subst hv
    refine ⟨_, rfl, ?_, ?_, ?_, by simp [mapUpdate], ?_⟩
    · intro ht
      simp only [credOf]
      rw [hmiss2 _ hAuthNotVoter, hsc1, if_pos ht]
    · intro ht
      simp only [credOf]
      rw [hmiss2 _ hAuthNotVoter, hsc1, if_neg (by simp [ht])]
    · intro vid hv'
      have hs2 := hsc2 vid hv'
      rw [hmiss1 _ (hna vid hv')] at hs2
      constructor
      · intro hc
        simp only [credOf]
        rw [hs2, if_pos hc]
      · intro hc
        simp only [credOf]
        rw [hs2, if_neg (by simp [hc])]
    · intro b now2
      simp [verifyRumor, mapUpdate]

/-- C7 witness: verifying rumor 1 of `c7World` as false penalizes the author
(wallet 1) by 10, the CONFIRM voter (wallet 2) by 1, rewards the DISPUTE
voter (wallet 3) with 2, and a second verification attempt reverts. -/
theorem c7_verification_outcomes_witness :
    (c7After.idState.students 1).credibilityScore
        = (c7World.idState.students 1).credibilityScore - AUTHOR_PENALTY_FALSE ∧
    (c7After.idState.students 2).credibilityScore
        = (c7World.idState.students 2).credibilityScore - 1 ∧
    (c7After.idState.students 3).credibilityScore
        = (c7World.idState.students 3).credibilityScore + 2 ∧
    c7After.verifState.verifiedRumors 1 = true ∧
    verifyRumor c7After 1 true 500 = .error .alreadyVerified := by
  obtain ⟨w1, hok, hat, haf, hvoters, hflag, hsecond⟩ :=
    c7_verification_outcomes c7World 1 false 100 rfl (by decide) (by decide)
      (by decide) (by decide) (by decide)
  have heq : verifyRumor c7World 1 false 100 = .ok c7After := rfl
  rw [heq] at hok
  have he : w1 = c7After := (Except.ok.inj hok).symm
  subst he
  exact ⟨haf rfl, (hvoters 1 (by decide)).2 rfl, (hvoters 2 (by decide)).1 rfl,
    hflag, hsecond true 500⟩
